import Mathlib

/-! # Nautilus: a verification development

A shallow embedding of parts of the Nautilus file manager:

* `libnautilus-private/nautilus-link.c`: the `.desktop` link-file writer and reader;
* `src/nautilus-window-bookmarks.c`: adding a bookmark for the current location;
* `src/nautilus-application.c`: command-line handling and the removal of a mount;
* `src/nautilus-dbus-manager.c`: the D-Bus method handler, registration and disposal;
* `libnautilus-private/nautilus-search-engine-tracker.c`: the Tracker search engine;
* `src/nautilus-list-view.c`: the selection functions of the list view, the end of a
  rename and the button presses.

C strings are modelled as lists of characters (`Str`), a `NULL` pointer as `none`,
and side effects as explicit lists of events.  Functions of libraries outside the
repository (GLib, GIO, GTK) are parameters of the embedding, bundled in records.
-/

namespace Nautilus

/-- A C string holding text: the list of its characters, the terminating NUL left implicit. -/
abbrev Str := List Char

/-! ## GLib string helpers used by the sources -/

/-- GLib `g_ascii_isspace`: space, form feed, newline, carriage return and horizontal tab. -/
def g_ascii_isspace (c : Char) : Bool :=
  c == ' ' || c == '\t' || c == '\n' || c == '\r' || c == Char.ofNat 12

/-- GLib `g_ascii_isalpha`. -/
def g_ascii_isalpha (c : Char) : Bool :=
  (97 ≤ c.toNat && c.toNat ≤ 122) || (65 ≤ c.toNat && c.toNat ≤ 90)

/-- GLib `g_ascii_isdigit`. -/
def g_ascii_isdigit (c : Char) : Bool :=
  48 ≤ c.toNat && c.toNat ≤ 57

/-- GLib `g_ascii_tolower`: only the letters `A`..`Z` change. -/
def g_ascii_tolower (c : Char) : Char :=
  if 65 ≤ c.toNat ∧ c.toNat ≤ 90 then Char.ofNat (c.toNat + 32) else c

/-- GLib `g_ascii_strcasecmp`: walk both strings while neither has ended, comparing
the lower-cased characters; the result is the difference at the first place the two
differ (an ended string counts as NUL there). -/
def g_ascii_strcasecmp : Str → Str → Int
  | c1 :: s1, c2 :: s2 =>
    if (g_ascii_tolower c1).toNat ≠ (g_ascii_tolower c2).toNat then
      ((g_ascii_tolower c1).toNat : Int) - ((g_ascii_tolower c2).toNat : Int)
    else g_ascii_strcasecmp s1 s2
  | [], [] => 0
  | c1 :: _, [] => (c1.toNat : Int)
  | [], c2 :: _ => - (c2.toNat : Int)

/-- C `strcmp (a, b) == 0`. -/
def strcmp_eq (a b : Str) : Bool := a == b

/-- GLib `g_strcmp0 (a, b) == 0`, where `a` may be `NULL` and `b` is a literal. -/
def g_strcmp0_eq (a : Option Str) (b : Str) : Bool :=
  match a with
  | none => false
  | some s => s == b

/-- The loop of GLib `g_uri_parse_scheme`: the characters up to the first `:`, if
all of them are letters, digits, `+`, `-` or `.`. -/
def g_uri_parse_scheme_loop : Str → Option Str
  | [] => none
  | c :: rest =>
    if c == ':' then some []
    else if g_ascii_isalpha c || g_ascii_isdigit c || c == '+' || c == '-' || c == '.' then
      (g_uri_parse_scheme_loop rest).map (fun s => c :: s)
    else none

/-- GLib `g_uri_parse_scheme`: `scheme = ALPHA *( ALPHA / DIGIT / "+" / "-" / "." )`
followed by `:`; `none` when the string does not start with a scheme. -/
def g_uri_parse_scheme (uri : Str) : Option Str :=
  match uri with
  | [] => none
  | c :: _ => if g_ascii_isalpha c then g_uri_parse_scheme_loop uri else none

/-- GLib `g_path_is_absolute` on Unix: the path starts with the directory separator. -/
def g_path_is_absolute (file_name : Str) : Bool :=
  match file_name with
  | c :: _ => c == '/'
  | [] => false

/-- C `strchr (s, c)`: the suffix of `s` that starts at the first occurrence of `c`. -/
def strchr : Str → Char → Option Str
  | [], _ => none
  | x :: rest, c => if x == c then some (x :: rest) else strchr rest c

/-! ## `nautilus-link.c`: the reader -/

/-- The library functions `nautilus-link.c` calls on a parsed key file and on files,
for a key-file type `KF`.  `g_key_file_load_from_data` is given the bytes of the text
that are to be parsed and answers `none` when parsing fails; the getters answer `none`
for `NULL`.  `g_file_get_parent` maps the URI of a file to its parent (if any) and
`g_file_resolve_relative_path` maps a parent and a relative path to the URI of the
resolved file.  `NAUTILUS_ICON_FOLDER` is the macro of `nautilus-icon-names.h`. -/
structure LinkDeps (KF : Type) where
  g_key_file_load_from_data : Str → Option KF
  g_key_file_get_string : KF → Str → Str → Option Str
  g_key_file_get_locale_string : KF → Str → Str → Option Str
  g_key_file_get_string_list : KF → Str → Str → Option (List Str)
  g_key_file_has_key : KF → Str → Str → Bool
  g_file_get_parent : Str → Option Str
  g_file_resolve_relative_path : Str → Str → Option Str
  NAUTILUS_ICON_FOLDER : Str

def MAIN_GROUP : Str := "Desktop Entry".toList
def NAUTILUS_LINK_GENERIC_TAG : Str := "Link".toList
def NAUTILUS_LINK_TRASH_TAG : Str := "X-nautilus-trash".toList
def NAUTILUS_LINK_MOUNT_TAG : Str := "FSDevice".toList
def NAUTILUS_LINK_HOME_TAG : Str := "X-nautilus-home".toList

/-- The value of the local `retval` of `nautilus_link_get_link_uri_from_desktop` when
control reaches the relative-path handling (source lines 394-410); the early
`return NULL` for a missing `Type` is the `none` of the first case. -/
def nautilus_link_get_link_uri_from_desktop_retval {KF : Type} (D : LinkDeps KF)
    (key_file : KF) : Option Str :=
  match D.g_key_file_get_string key_file MAIN_GROUP "Type".toList with
  | none => none
  | some type =>
    if strcmp_eq type "URL".toList then
      D.g_key_file_get_string key_file MAIN_GROUP "Exec".toList
    else if strcmp_eq type NAUTILUS_LINK_GENERIC_TAG ||
            strcmp_eq type NAUTILUS_LINK_MOUNT_TAG ||
            strcmp_eq type NAUTILUS_LINK_TRASH_TAG ||
            strcmp_eq type NAUTILUS_LINK_HOME_TAG then
      D.g_key_file_get_string key_file MAIN_GROUP "URL".toList
    else none

/-- The relative-path handling of `nautilus_link_get_link_uri_from_desktop` (source lines
412-432): a target without a URI scheme is resolved against the parent of the
desktop file, when the desktop file's URI is known and it has a parent. -/
def resolve_local_file_name {KF : Type} (D : LinkDeps KF)
    (retval : Option Str) (desktop_file_uri : Option Str) : Option Str :=
  match retval, desktop_file_uri with
  | some r, some file_uri =>
    match g_uri_parse_scheme r with
    | some _ => some r
    | none =>
      match D.g_file_get_parent file_uri with
      | some parent => D.g_file_resolve_relative_path parent r
      | none => some r
  | _, _ => retval

def nautilus_link_get_link_uri_from_desktop {KF : Type} (D : LinkDeps KF)
    (key_file : KF) (desktop_file_uri : Option Str) : Option Str :=
  resolve_local_file_name D (nautilus_link_get_link_uri_from_desktop_retval D key_file)
    desktop_file_uri

def nautilus_link_get_link_name_from_desktop {KF : Type} (D : LinkDeps KF)
    (key_file : KF) : Option Str :=
  D.g_key_file_get_locale_string key_file MAIN_GROUP "Name".toList

/-- The icons `nautilus-link.c` builds: `g_file_icon_new`, `g_themed_icon_new`,
`g_themed_icon_new_with_default_fallbacks` and `g_emblemed_icon_new`. -/
inductive GIcon where
  | file_icon (path : Str)
  | themed_icon (name : Str)
  | themed_icon_with_default_fallbacks (name : Str)
  | emblemed_icon (icon : GIcon) (emblem : GIcon)
  deriving DecidableEq, Repr

/-- The known-extension test of `nautilus_link_get_link_icon_from_desktop` on the
suffix `p` that starts at the first dot. -/
def is_known_icon_extension (p : Str) : Bool :=
  g_ascii_strcasecmp p ".png".toList == 0 ||
  g_ascii_strcasecmp p ".svn".toList == 0 ||
  g_ascii_strcasecmp p ".jpg".toList == 0 ||
  g_ascii_strcasecmp p ".xpm".toList == 0 ||
  g_ascii_strcasecmp p ".bmp".toList == 0 ||
  g_ascii_strcasecmp p ".jpeg".toList == 0

/-- The `else` branch at source lines 479-490: `*p = 0` cuts the string at the first
dot when what follows is a known extension. -/
def strip_icon_extension (icon_str : Str) : Str :=
  match strchr icon_str '.' with
  | some p =>
    if is_known_icon_extension p then icon_str.take (icon_str.length - p.length)
    else icon_str
  | none => icon_str

/-- The default icon name for a desktop entry without an `Icon` key (lines 465-477). -/
def default_icon_name {KF : Type} (D : LinkDeps KF) (type : Option Str) : Str :=
  if g_strcmp0_eq type "Application".toList then "application-x-executable".toList
  else if g_strcmp0_eq type "FSDevice".toList then "drive-harddisk".toList
  else if g_strcmp0_eq type "Directory".toList then D.NAUTILUS_ICON_FOLDER
  else if g_strcmp0_eq type "Service".toList || g_strcmp0_eq type "ServiceType".toList then
    "folder-remote".toList
  else "text-x-preview".toList

/-- `nautilus_link_get_link_icon_from_desktop`: an absolute path gives a file icon at
once (`goto out`, before `Type` is read); otherwise a themed icon is built from the
stripped `Icon` value, or from the default name for the `Type`, and a `Link` gets the
link emblem. -/
def nautilus_link_get_link_icon_from_desktop {KF : Type} (D : LinkDeps KF)
    (key_file : KF) : GIcon :=
  let icon_str := D.g_key_file_get_string key_file MAIN_GROUP "Icon".toList
  if (match icon_str with
      | some s => g_path_is_absolute s
      | none => false) then
    GIcon.file_icon (icon_str.getD [])
  else
    let type := D.g_key_file_get_string key_file MAIN_GROUP "Type".toList
    let icon_str :=
      match icon_str with
      | none => default_icon_name D type
      | some s => strip_icon_extension s
    let icon := GIcon.themed_icon_with_default_fallbacks icon_str
    if g_strcmp0_eq type "Link".toList then
      GIcon.emblemed_icon icon (GIcon.themed_icon "emblem-symbolic-link".toList)
    else icon

/-- `string_array_contains`: a `NULL` array contains nothing; otherwise the first entry
that equals `str` ignoring ASCII case ends the search. -/
def string_array_contains (array : Option (List Str)) (str : Str) : Bool :=
  match array with
  | none => false
  | some l => l.any (fun p => g_ascii_strcasecmp p str == 0)

/-- The five outputs of `nautilus_link_get_link_info_given_file_contents`. -/
structure LinkInfo where
  uri : Option Str
  name : Option Str
  icon : GIcon
  is_launcher : Bool
  is_foreign : Bool
  deriving DecidableEq, Repr

/-- `nautilus_link_get_link_info_given_file_contents`.  `file_contents` stands for the
`link_file_size` bytes handed to the parser.  The result is `none` when the text does
not parse: the function then returns without writing any of its outputs. -/
def nautilus_link_get_link_info_given_file_contents {KF : Type} (D : LinkDeps KF)
    (file_contents : Str) (file_uri : Option Str) : Option LinkInfo :=
  match D.g_key_file_load_from_data file_contents with
  | none => none
  | some key_file =>
    let uri := nautilus_link_get_link_uri_from_desktop D key_file file_uri
    let name := nautilus_link_get_link_name_from_desktop D key_file
    let icon := nautilus_link_get_link_icon_from_desktop D key_file
    let is_launcher := false
    let type := D.g_key_file_get_string key_file MAIN_GROUP "Type".toList
    let is_launcher :=
      if g_strcmp0_eq type "Application".toList &&
         D.g_key_file_has_key key_file MAIN_GROUP "Exec".toList then true else is_launcher
    let is_foreign := false
    let only_show_in := D.g_key_file_get_string_list key_file MAIN_GROUP "OnlyShowIn".toList
    let is_foreign :=
      if only_show_in.isSome && !string_array_contains only_show_in "GNOME".toList then true
      else is_foreign
    let not_show_in := D.g_key_file_get_string_list key_file MAIN_GROUP "NotShowIn".toList
    let is_foreign :=
      if not_show_in.isSome && string_array_contains not_show_in "GNOME".toList then true
      else is_foreign
    some { uri := uri, name := name, icon := icon,
           is_launcher := is_launcher, is_foreign := is_foreign }

/-! ## A model of GLib's key-file reader (`gkeyfile.c`)

The key-file functions are GLib's, not the repository's.  To run the reader on the
text the writer produces they are modelled here after GLib's implementation, for
key files loaded with `G_KEY_FILE_NONE` and holding text (valid UTF-8). -/

/-- What the GLib model takes from the process environment: the list
`g_get_language_names ()` and the Unicode table behind `g_unichar_isalnum`. -/
structure GLibEnv where
  g_get_language_names : List Str
  g_unichar_isalnum : Char → Bool

/-- A group of a key file; `key_value_pairs` holds the most recently added pair first. -/
structure GKeyFileGroup where
  name : Str
  key_value_pairs : List (Str × Str)
  deriving DecidableEq, Repr

/-- A key file: its groups, the name of the first group of the file and the name of the
group that key-value pairs are currently added to. -/
structure GKeyFile where
  groups : List GKeyFileGroup
  start_group : Option Str
  current_group : Option Str
  deriving DecidableEq, Repr

def g_key_file_new : GKeyFile := { groups := [], start_group := none, current_group := none }

def g_ascii_iscntrl (c : Char) : Bool := c.toNat < 32 || c.toNat == 127

def g_key_file_line_is_comment (line : Str) : Bool :=
  match line with
  | [] => true
  | c :: _ => c == '#' || c == '\n'

/-- A group line: `[`, anything up to the first `]`, then only spaces and tabs. -/
def g_key_file_line_is_group (line : Str) : Bool :=
  match line with
  | [] => false
  | c :: rest =>
    if c == '[' then
      match strchr rest ']' with
      | some (_ :: after) => (after.dropWhile (fun x => x == ' ' || x == '\t')).isEmpty
      | _ => false
    else false

/-- A key-value line has a `=` that is not its first character. -/
def g_key_file_line_is_key_value_pair (line : Str) : Bool :=
  match strchr line '=', line with
  | some _, c :: _ => !(c == '=')
  | _, _ => false

def g_key_file_is_group_name (name : Str) : Bool :=
  !name.isEmpty && name.all (fun c => !(c == ']') && !(c == '[') && !g_ascii_iscntrl c)

/-- The optional `[locale]` part of a key name: present, it must be `[`, then letters,
digits, `-`, `_`, `.` or `@`, then `]`, and end the name. -/
def g_key_file_is_key_name_locale (E : GLibEnv) (q : Str) : Bool :=
  match q with
  | [] => true
  | c :: rest =>
    if c == '[' then
      match rest.dropWhile
          (fun x => E.g_unichar_isalnum x || x == '-' || x == '_' || x == '.' || x == '@') with
      | [x] => x == ']'
      | _ => false
    else false

def g_key_file_is_key_name (E : GLibEnv) (name : Str) : Bool :=
  let base := name.takeWhile (fun c => !(c == '=') && !(c == '[') && !(c == ']'))
  !base.isEmpty && !(base.head? == some ' ') && !(base.getLast? == some ' ') &&
    g_key_file_is_key_name_locale E (name.drop base.length)

/-- The suffix of `s` that starts at its last `[` (`g_strrstr (key, "[")`). -/
def strrchr_bracket : Str → Option Str
  | [] => none
  | c :: rest =>
    match strrchr_bracket rest with
    | some r => some r
    | none => if c == '[' then some (c :: rest) else none

/-- The locale of a key such as `Name[fr]`: what stands between the last `[` and the
final character, when that suffix is longer than two characters. -/
def key_get_locale (key : Str) : Option Str :=
  match strrchr_bracket key with
  | none => none
  | some locale => if locale.length ≤ 2 then none else some ((locale.drop 1).take (locale.length - 2))

def g_key_file_locale_is_interesting (E : GLibEnv) (locale : Str) : Bool :=
  E.g_get_language_names.any (fun l => g_ascii_strcasecmp l locale == 0)

def g_key_file_lookup_group (key_file : GKeyFile) (group_name : Str) : Option GKeyFileGroup :=
  key_file.groups.find? (fun g => g.name == group_name)

/-- A group met again becomes the current group; a new group is added, and is the
start group when it is the first. -/
def g_key_file_add_group (key_file : GKeyFile) (group_name : Str) : GKeyFile :=
  match g_key_file_lookup_group key_file group_name with
  | some _ => { key_file with current_group := some group_name }
  | none =>
    { groups := { name := group_name, key_value_pairs := [] } :: key_file.groups,
      start_group := match key_file.start_group with
        | none => some group_name
        | some s => some s,
      current_group := some group_name }

def g_key_file_add_key_value_pair (key_file : GKeyFile) (group_name : Str)
    (key value : Str) : GKeyFile :=
  { key_file with groups := key_file.groups.map (fun g =>
      if g.name == group_name then
        { g with key_value_pairs := (key, value) :: g.key_value_pairs }
      else g) }

/-- The name is what stands between the opening `[` and the last `]` of the line. -/
def g_key_file_parse_group (key_file : GKeyFile) (line : Str) : Option GKeyFile :=
  let group_name := (((line.reverse.dropWhile (fun c => !(c == ']'))).drop 1).reverse).drop 1
  if g_key_file_is_group_name group_name then some (g_key_file_add_group key_file group_name)
  else none

/-- Drop the white space at the end of a key (`key_end--` while it is on white space). -/
def chomp (s : Str) : Str := (s.reverse.dropWhile g_ascii_isspace).reverse

def g_key_file_parse_key_value_pair (E : GLibEnv) (key_file : GKeyFile) (line : Str) :
    Option GKeyFile :=
  match key_file.current_group with
  | none => none
  | some current =>
    let key := chomp (line.takeWhile (fun c => !(c == '=')))
    if !g_key_file_is_key_name E key then none
    else
      let value := ((line.dropWhile (fun c => !(c == '='))).drop 1).dropWhile g_ascii_isspace
      if key_file.start_group == some current && key == "Encoding".toList &&
          !(g_ascii_strcasecmp value "UTF-8".toList == 0) then none
      else
        match key_get_locale key with
        | none => some (g_key_file_add_key_value_pair key_file current key value)
        | some locale =>
          if g_key_file_locale_is_interesting E locale then
            some (g_key_file_add_key_value_pair key_file current key value)
          else some key_file

/-- One line of the file: a comment (kept out of the model), a group header or a
key-value pair; any other line is a parse error. -/
def g_key_file_parse_line (E : GLibEnv) (key_file : GKeyFile) (line : Str) : Option GKeyFile :=
  let line_start := line.dropWhile g_ascii_isspace
  if g_key_file_line_is_comment line_start then some key_file
  else if g_key_file_line_is_group line_start then g_key_file_parse_group key_file line_start
  else if g_key_file_line_is_key_value_pair line_start then
    g_key_file_parse_key_value_pair E key_file line_start
  else none

/-- The end of a line in `g_key_file_parse_data`: one `\r` at the end of the buffer is
erased, then a non-empty buffer is parsed as a line and an empty one is a blank line. -/
def g_key_file_end_of_line (E : GLibEnv) (key_file : GKeyFile) (parse_buffer : Str) :
    Option GKeyFile :=
  let buffer := if parse_buffer.getLast? == some '\r' then parse_buffer.dropLast else parse_buffer
  if buffer.isEmpty then some key_file else g_key_file_parse_line E key_file buffer

/-- `g_key_file_parse_data`: the text is cut at every `\n`; what follows the last `\n`
stays in the parse buffer, which is returned with the key file. -/
def g_key_file_parse_data (E : GLibEnv) : GKeyFile → Str → Str → Option (GKeyFile × Str)
  | key_file, parse_buffer, [] => some (key_file, parse_buffer)
  | key_file, parse_buffer, c :: data =>
    if c == '\n' then
      match g_key_file_end_of_line E key_file parse_buffer with
      | none => none
      | some key_file1 => g_key_file_parse_data E key_file1 [] data
    else g_key_file_parse_data E key_file (parse_buffer ++ [c]) data

/-- `g_key_file_load_from_data` with `G_KEY_FILE_NONE` on a fresh key file: parse the
data, then flush what is left in the parse buffer. -/
def g_key_file_load_from_data (E : GLibEnv) (data : Str) : Option GKeyFile :=
  match g_key_file_parse_data E g_key_file_new [] data with
  | none => none
  | some (key_file, parse_buffer) =>
    if parse_buffer.isEmpty then some key_file
    else g_key_file_parse_line E key_file parse_buffer

def g_key_file_get_value (key_file : GKeyFile) (group_name key : Str) : Option Str :=
  match g_key_file_lookup_group key_file group_name with
  | none => none
  | some g => (g.key_value_pairs.find? (fun p => p.1 == key)).map (fun p => p.2)

def g_key_file_has_key (key_file : GKeyFile) (group_name key : Str) : Bool :=
  (g_key_file_get_value key_file group_name key).isSome

/-- `g_key_file_parse_value_as_string` without a list of pieces: the value with the
escapes `\s`, `\n`, `\t`, `\r` and `\\` replaced; another escape is kept as it is
and a backslash that ends the value is dropped. -/
def g_key_file_parse_value_as_string : Str → Str
  | [] => []
  | c :: rest =>
    if c == '\\' then
      match rest with
      | [] => []
      | e :: rest1 =>
        (if e == 's' then [' '] else if e == 'n' then ['\n'] else if e == 't' then ['\t']
         else if e == 'r' then ['\r'] else if e == '\\' then ['\\'] else ['\\', e])
          ++ g_key_file_parse_value_as_string rest1
    else c :: g_key_file_parse_value_as_string rest

def g_key_file_get_string (key_file : GKeyFile) (group_name key : Str) : Option Str :=
  (g_key_file_get_value key_file group_name key).map g_key_file_parse_value_as_string

/-- `g_key_file_parse_value_as_string` with a list of pieces, separator `;`: `piece` is
the piece being read.  An unescaped `;` ends a piece, `\;` is a `;` inside one, and
a last piece that is empty is not added.  `none` when the value has an invalid escape
or ends in a backslash (the error that makes `g_key_file_get_string_list` return
`NULL`). -/
def g_key_file_parse_value_as_pieces : Str → Str → Option (List Str)
  | [], piece => some (if piece.isEmpty then [] else [piece])
  | c :: rest, piece =>
    if c == '\\' then
      match rest with
      | [] => none
      | e :: rest1 =>
        if e == 's' then g_key_file_parse_value_as_pieces rest1 (piece ++ [' '])
        else if e == 'n' then g_key_file_parse_value_as_pieces rest1 (piece ++ ['\n'])
        else if e == 't' then g_key_file_parse_value_as_pieces rest1 (piece ++ ['\t'])
        else if e == 'r' then g_key_file_parse_value_as_pieces rest1 (piece ++ ['\r'])
        else if e == '\\' then g_key_file_parse_value_as_pieces rest1 (piece ++ ['\\'])
        else if e == ';' then g_key_file_parse_value_as_pieces rest1 (piece ++ [';'])
        else none
    else if c == ';' then
      (g_key_file_parse_value_as_pieces rest []).map (fun l => piece :: l)
    else g_key_file_parse_value_as_pieces rest (piece ++ [c])

def g_key_file_get_string_list (key_file : GKeyFile) (group_name key : Str) :
    Option (List Str) :=
  match g_key_file_get_value key_file group_name key with
  | none => none
  | some value => g_key_file_parse_value_as_pieces value []

/-- `g_key_file_get_locale_string` with a `NULL` locale: the first of the keys
`key[language]`, over `g_get_language_names ()`, that has a value, else the plain key. -/
def g_key_file_get_locale_string (E : GLibEnv) (key_file : GKeyFile) (group_name key : Str) :
    Option Str :=
  match E.g_get_language_names.findSome? (fun l =>
      g_key_file_get_string key_file group_name (key ++ "[".toList ++ l ++ "]".toList)) with
  | some translated_value => some translated_value
  | none => g_key_file_get_string key_file group_name key

/-- The library record whose key-file functions are the GLib model. -/
def glib_deps (E : GLibEnv) (g_file_get_parent : Str → Option Str)
    (g_file_resolve_relative_path : Str → Str → Option Str) (icon_folder : Str) :
    LinkDeps GKeyFile :=
  { g_key_file_load_from_data := g_key_file_load_from_data E,
    g_key_file_get_string := g_key_file_get_string,
    g_key_file_get_locale_string := g_key_file_get_locale_string E,
    g_key_file_get_string_list := g_key_file_get_string_list,
    g_key_file_has_key := g_key_file_has_key,
    g_file_get_parent := g_file_get_parent,
    g_file_resolve_relative_path := g_file_resolve_relative_path,
    NAUTILUS_ICON_FOLDER := icon_folder }

/-! ## `nautilus-link.c`: the writer -/

/-- The text `nautilus_link_local_create` builds with `g_strdup_printf` (source lines
238-247): the `Icon=` line is an empty line when `image` is `NULL`. -/
def nautilus_link_local_create_contents (display_name : Str) (image : Option Str)
    (target_uri : Str) : Str :=
  "[Desktop Entry]\nEncoding=UTF-8\nName=".toList ++ display_name ++
  "\nType=Link\nURL=".toList ++ target_uri ++ "\n".toList ++
  (match image with
   | some _ => "Icon=".toList
   | none => []) ++
  (match image with
   | some i => i
   | none => []) ++ "\n".toList

/-- What `nautilus_link_local_create` asks of eel, of the rest of libnautilus-private
and of GIO.  Files are named by their URI; `g_file_replace_contents` tells whether
writing the contents to the file succeeds. -/
structure LinkCreateEnv where
  eel_uri_is_trash : Str → Bool
  eel_uri_is_search : Str → Bool
  eel_uri_is_desktop : Str → Bool
  nautilus_get_desktop_directory_uri : Str
  nautilus_ensure_unique_file_name : Str → Str → Str → Option Str
  g_file_get_child : Str → Str → Str
  g_file_replace_contents : Str → Str → Bool

/-- What a call of `nautilus_link_local_create` did: its return value, the file and
contents it handed to `g_file_replace_contents` (if it got that far), the file it
announced with `nautilus_directory_notify_files_added` and the position it scheduled
with `nautilus_directory_schedule_position_set`. -/
structure LinkCreateResult where
  result : Bool
  replace_contents : Option (Str × Str)
  notify_files_added : Option Str
  schedule_position_set : Option (Str × Int × Int × Int)
  deriving DecidableEq, Repr

/-- C `g_strdelimit (s, "/", '-')`. -/
def g_strdelimit_slash (s : Str) : Str := s.map (fun c => if c == '/' then '-' else c)

/-- `nautilus_link_local_create`, for non-`NULL` `directory_uri`, `base_name`,
`display_name` and `target_uri` (the `g_return_val_if_fail` preconditions). -/
def nautilus_link_local_create (env : LinkCreateEnv) (directory_uri base_name display_name : Str)
    (image : Option Str) (target_uri : Str) (point : Option (Int × Int)) (screen : Int)
    (unique_filename : Bool) : LinkCreateResult :=
  let failed : LinkCreateResult :=
    { result := false, replace_contents := none, notify_files_added := none,
      schedule_position_set := none }
  if env.eel_uri_is_trash directory_uri || env.eel_uri_is_search directory_uri then failed
  else
    let real_directory_uri :=
      if env.eel_uri_is_desktop directory_uri then env.nautilus_get_desktop_directory_uri
      else directory_uri
    let file : Option Str :=
      if unique_filename then
        env.nautilus_ensure_unique_file_name real_directory_uri base_name ".desktop".toList
      else
        some (env.g_file_get_child directory_uri
          (g_strdelimit_slash (base_name ++ ".desktop".toList)))
    match file with
    | none => failed
    | some file =>
      let contents := nautilus_link_local_create_contents display_name image target_uri
      if !env.g_file_replace_contents file contents then
        { failed with replace_contents := some (file, contents) }
      else
        { result := true,
          replace_contents := some (file, contents),
          notify_files_added := some file,
          schedule_position_set := point.map (fun pt => (file, pt.1, pt.2, screen)) }

/-! ## `nautilus-window-bookmarks.c` -/

/-- Modelled from the spec: a bookmark of `nautilus-bookmark.c` (not under `src/`), a
name together with the location it points to. -/
structure NautilusBookmark where
  name : Str
  location : Str
  deriving DecidableEq, Repr

/-- Modelled from the spec: `nautilus_bookmark_list_contains` of
`nautilus-bookmark-list.c` (not under `src/`): whether the list holds a bookmark for
the location of `bookmark`. -/
def nautilus_bookmark_list_contains (list : List NautilusBookmark)
    (bookmark : NautilusBookmark) : Bool :=
  list.any (fun b => b.location == bookmark.location)

/-- Modelled from the spec: `nautilus_bookmark_list_append` of
`nautilus-bookmark-list.c` (not under `src/`): the bookmark is added at the end of
the list. -/
def nautilus_bookmark_list_append (list : List NautilusBookmark)
    (bookmark : NautilusBookmark) : List NautilusBookmark :=
  list ++ [bookmark]

structure NautilusWindowSlot where
  current_location_bookmark : NautilusBookmark
  deriving DecidableEq, Repr

structure NautilusWindowPane where
  active_slot : NautilusWindowSlot
  deriving DecidableEq, Repr

/-- The fields of `NautilusWindowDetails` the bookmark code reads and writes. -/
structure NautilusWindowDetails where
  active_pane : NautilusWindowPane
  bookmark_list : List NautilusBookmark
  deriving DecidableEq, Repr

structure NautilusWindow where
  details : NautilusWindowDetails
  deriving DecidableEq, Repr

def nautilus_window_add_bookmark_for_current_location (window : NautilusWindow) :
    NautilusWindow :=
  let slot := window.details.active_pane.active_slot
  let bookmark := slot.current_location_bookmark
  let list := window.details.bookmark_list
  if !nautilus_bookmark_list_contains list bookmark then
    { window with details :=
        { window.details with bookmark_list := nautilus_bookmark_list_append list bookmark } }
  else window

/-! ## `nautilus-application.c`: the command line -/

def EXIT_SUCCESS : Int := 0
def EXIT_FAILURE : Int := 1

/-- The variables `g_option_context_parse` fills from the option table of
`nautilus_application_command_line`: `--check`, `--version`, `--geometry`,
`--no-default-window`, `--no-desktop`, `--quit` and the remaining arguments (`NULL`
when there is none). -/
structure CommandLineOptions where
  perform_self_check : Bool
  version : Bool
  geometry : Option Str
  no_default_window : Bool
  no_desktop : Bool
  kill_shell : Bool
  remaining : Option (List Str)
  deriving DecidableEq, Repr

/-- What `nautilus_application_command_line` takes from outside `nautilus-application.c`:
`PACKAGE_VERSION`, whether the self checks have failed when
`eel_exit_if_self_checks_failed` is called for the n-th time, the result of
`check_required_directories`, the show-desktop preference, the accelerator map file
and the GIO conversions of a command-line argument to a file and of a file to its URI. -/
structure ApplicationEnv where
  PACKAGE_VERSION : Str
  self_checks_failed : Nat → Bool
  check_required_directories : Bool
  show_desktop_preference : Bool
  nautilus_get_accel_map_file : Option Str
  g_file_new_for_commandline_arg : Str → Option Str
  g_file_get_uri : Str → Option Str

/-- The observable actions of `nautilus_application_command_line`, in the order they
happen.  `command_line_printerr msgid` stands for
`g_application_command_line_printerr (command_line, "%s\n", _(msgid))`: the message is
named by its untranslated text.  `open_window uri geometry` is a call of `open_window`:
a new window that goes to `uri`, or to the home directory when `uri` is `NULL`. -/
inductive AppEvent where
  | g_printerr (message : Str)
  | command_line_print (message : Str)
  | command_line_printerr (msgid : Str)
  | nautilus_run_self_checks
  | nautilus_run_lib_self_checks
  | eel_exit_if_self_checks_failed
  | nautilus_application_quit
  | nautilus_application_open_desktop
  | finish_startup (no_desktop : Bool)
  | monitor_show_desktop_preference
  | gtk_accel_map_load (file_name : Str)
  | monitor_accel_map
  | open_window (uri : Option Str) (geometry : Option Str)
  deriving DecidableEq, Repr

/-- The outcome of a call: the events, the new value of `self->priv->initialized`, and
the return value, which is `none` when the process exited inside
`eel_exit_if_self_checks_failed`. -/
structure CommandLineResult where
  retval : Option Int
  events : List AppEvent
  initialized : Bool
  deriving DecidableEq, Repr

def open_window (uri : Option Str) (geometry : Option Str) : List AppEvent :=
  [AppEvent.open_window uri geometry]

/-- `open_windows`: the default window when `uris` is `NULL` or empty, else one window
for each URI. -/
def open_windows (uris : Option (List Str)) (geometry : Option Str) : List AppEvent :=
  match uris with
  | none => open_window none geometry
  | some [] => open_window none geometry
  | some (u :: us) => (u :: us).flatMap (fun uri => open_window (some uri) geometry)

/-- The loop at source lines 1049-1058: the URIs of the remaining arguments, leaving
out an argument for which no file or no URI is obtained. -/
def convert_args_to_uris (env : ApplicationEnv) (remaining : List Str) : List Str :=
  remaining.filterMap (fun arg =>
    match env.g_file_new_for_commandline_arg arg with
    | none => none
    | some file => env.g_file_get_uri file)

/-- The two rounds of self checks (source lines 975-990, with the self checks compiled
in). -/
def run_self_checks_twice (env : ApplicationEnv) (initialized : Bool) : CommandLineResult :=
  let round := [AppEvent.nautilus_run_self_checks, AppEvent.nautilus_run_lib_self_checks,
    AppEvent.eel_exit_if_self_checks_failed]
  if env.self_checks_failed 1 then
    { retval := none, events := round, initialized := initialized }
  else if env.self_checks_failed 2 then
    { retval := none, events := round ++ round, initialized := initialized }
  else { retval := some EXIT_SUCCESS, events := round ++ round, initialized := initialized }

/-- The first-call initialisation (source lines 1007-1038). -/
def initialize_application (env : ApplicationEnv) (no_desktop : Bool) : List AppEvent :=
  let no_desktop := if !no_desktop && !env.show_desktop_preference then true else no_desktop
  (if !no_desktop then [AppEvent.nautilus_application_open_desktop] else []) ++
  [AppEvent.finish_startup no_desktop, AppEvent.monitor_show_desktop_preference] ++
  (match env.nautilus_get_accel_map_file with
   | some accel_map_filename => [AppEvent.gtk_accel_map_load accel_map_filename]
   | none => []) ++
  [AppEvent.monitor_accel_map]

/-- `nautilus_application_command_line`, built with the self checks (without
`NAUTILUS_OMIT_SELF_CHECK`).  `parsed` is the outcome of `g_option_context_parse`: the
error message, or the option variables. -/
def nautilus_application_command_line (env : ApplicationEnv) (initialized : Bool)
    (parsed : Except Str CommandLineOptions) : CommandLineResult :=
  match parsed with
  | Except.error message =>
    { retval := some EXIT_FAILURE,
      events := [AppEvent.g_printerr
        ("Could not parse arguments: ".toList ++ message ++ "\n".toList)],
      initialized := initialized }
  | Except.ok o =>
    if o.version then
      { retval := some EXIT_SUCCESS,
        events := [AppEvent.command_line_print
          ("GNOME nautilus ".toList ++ env.PACKAGE_VERSION ++ "\n".toList)],
        initialized := initialized }
    else if o.perform_self_check && (o.remaining.isSome || o.kill_shell) then
      { retval := some EXIT_FAILURE,
        events := [AppEvent.command_line_printerr
          "--check cannot be used with other options.".toList],
        initialized := initialized }
    else if o.kill_shell && o.remaining.isSome then
      { retval := some EXIT_FAILURE,
        events := [AppEvent.command_line_printerr
          "--quit cannot be used with URIs.".toList],
        initialized := initialized }
    else if o.geometry.isSome &&
        (match o.remaining with
         | some (_ :: _ :: _) => true
         | _ => false) then
      { retval := some EXIT_FAILURE,
        events := [AppEvent.command_line_printerr
          "--geometry cannot be used with more than one URI.".toList],
        initialized := initialized }
    else if o.perform_self_check then run_self_checks_twice env initialized
    else if !o.kill_shell && !env.check_required_directories then
      { retval := some EXIT_FAILURE, events := [], initialized := initialized }
    else if o.kill_shell then
      { retval := some EXIT_SUCCESS, events := [AppEvent.nautilus_application_quit],
        initialized := initialized }
    else
      let startup := if !initialized then initialize_application env o.no_desktop else []
      let uris := o.remaining.map (convert_args_to_uris env)
      let windows :=
        if uris.isSome || !o.no_default_window then open_windows uris o.geometry else []
      { retval := some EXIT_SUCCESS, events := startup ++ windows, initialized := true }

/-- The windows a call opened with `open_window`: for each, the URI it goes to (`none`
for the home location). -/
def opened_windows (r : CommandLineResult) : List (Option Str) :=
  r.events.filterMap (fun e =>
    match e with
    | AppEvent.open_window uri _ => some uri
    | _ => none)

/-- The number of self-check runs (`nautilus_run_self_checks` or
`nautilus_run_lib_self_checks`) of a call. -/
def self_check_runs (r : CommandLineResult) : Nat :=
  (r.events.filter (fun e =>
    e == AppEvent.nautilus_run_self_checks || e == AppEvent.nautilus_run_lib_self_checks)).length

/-! ## `nautilus-dbus-manager.c` -/

/-- The parameters of a method call, by shape: an array of strings with a string
(`(ass)`), four strings (`(ssss)`), or anything else. -/
inductive GVariant where
  | array_and_string (strv : List Str) (s : Str)
  | four_strings (s1 s2 s3 s4 : Str)
  | other
  deriving DecidableEq, Repr

/-- `g_variant_get (parameters, "(^a&s&s)", ...)`.  Parameters of another shape leave
the two variables `NULL`; GDBus checks the parameters of a call against the
introspection data, so they do not reach the handler. -/
def g_variant_get_array_and_string (parameters : GVariant) : Option (List Str) × Option Str :=
  match parameters with
  | GVariant.array_and_string strv s => (some strv, some s)
  | _ => (none, none)

/-- `g_variant_get (parameters, "(&s&s&s&s)", ...)`, with the same convention. -/
def g_variant_get_four_strings (parameters : GVariant) :
    Option Str × Option Str × Option Str × Option Str :=
  match parameters with
  | GVariant.four_strings s1 s2 s3 s4 => (some s1, some s2, some s3, some s4)
  | _ => (none, none, none, none)

/-- The observable actions of the D-Bus handler.  Files are named by the URI they
were made from. -/
inductive DBusEvent where
  | nautilus_file_operations_copy_file (source_file target_dir : Str)
      (source_name target_name : Option Str)
  | nautilus_file_operations_copy (source_files : List Str) (dest_dir : Str)
  | nautilus_file_operations_empty_trash
  | nautilus_application_create_window (startup_id : Str)
  | nautilus_properties_window_present (source_files : List Str)
  | g_dbus_method_invocation_return_value (parameters : Option GVariant)
  deriving DecidableEq, Repr

/-- C `s == NULL || s[0] == 0`. -/
def null_or_empty (s : Option Str) : Bool :=
  match s with
  | none => true
  | some [] => true
  | some (_ :: _) => false

def trigger_copy_file_operation (source_uri source_display_name dest_dir_uri dest_name :
    Option Str) : List DBusEvent :=
  match source_uri, dest_dir_uri with
  | some source, some dest_dir =>
    if source.isEmpty || dest_dir.isEmpty then []
    else
      let target_name := if !null_or_empty dest_name then dest_name else none
      let source_name :=
        if !null_or_empty source_display_name then source_display_name else none
      [DBusEvent.nautilus_file_operations_copy_file source dest_dir source_name target_name]
  | _, _ => []

/-- `trigger_copy_uris_operation`: `g_list_prepend` builds the list of files in reverse
order. -/
def trigger_copy_uris_operation (sources : Option (List Str)) (destination : Option Str) :
    List DBusEvent :=
  match sources, destination with
  | some (s :: rest), some dest =>
    [DBusEvent.nautilus_file_operations_copy (s :: rest).reverse dest]
  | _, _ => []

def trigger_empty_trash_operation : List DBusEvent :=
  [DBusEvent.nautilus_file_operations_empty_trash]

def trigger_show_uris_operation (_uris : Option (List Str)) (_startup_id : Option Str) :
    List DBusEvent := []

def trigger_select_uris_operation (_uris : Option (List Str)) (_startup_id : Option Str) :
    List DBusEvent := []

def trigger_show_properties_operation (uris : Option (List Str)) (startup_id : Option Str) :
    List DBusEvent :=
  match uris, startup_id with
  | some (u :: rest), some id =>
    DBusEvent.nautilus_application_create_window id ::
      (u :: rest).map (fun uri => DBusEvent.nautilus_properties_window_present [uri])
  | _, _ => []

/-- `handle_method_call`: the events of the call, the reply included.  `method_name`
may be `NULL` (`g_strcmp0`). -/
def handle_method_call (method_name : Option Str) (parameters : GVariant) : List DBusEvent :=
  let out := [DBusEvent.g_dbus_method_invocation_return_value none]
  if g_strcmp0_eq method_name "CopyURIs".toList then
    let args := g_variant_get_array_and_string parameters
    trigger_copy_uris_operation args.1 args.2 ++ out
  else if g_strcmp0_eq method_name "EmptyTrash".toList then
    trigger_empty_trash_operation ++ out
  else if g_strcmp0_eq method_name "CopyFile".toList then
    let args := g_variant_get_four_strings parameters
    trigger_copy_file_operation args.1 args.2.1 args.2.2.1 args.2.2.2 ++ out
  else if g_strcmp0_eq method_name "ShowURIs".toList then
    let args := g_variant_get_array_and_string parameters
    trigger_show_uris_operation args.1 args.2 ++ out
  else if g_strcmp0_eq method_name "SelectURIs".toList then
    let args := g_variant_get_array_and_string parameters
    trigger_select_uris_operation args.1 args.2 ++ out
  else if g_strcmp0_eq method_name "ShowProperties".toList then
    let args := g_variant_get_array_and_string parameters
    trigger_show_properties_operation args.1 args.2 ++ out
  else out

/-! ## `nautilus-search-engine-tracker.c` -/

/-- The fields of a `NautilusQuery` the Tracker engine reads (`nautilus_query_get_text`,
`nautilus_query_get_location`, `nautilus_query_get_mime_types`). -/
structure NautilusQuery where
  text : Str
  location_uri : Option Str
  mime_types : List Str
  deriving DecidableEq, Repr

/-- `NautilusSearchEngineTrackerDetails`, without the connection and the cancellable. -/
structure NautilusSearchEngineTrackerDetails where
  query : Option NautilusQuery
  query_pending : Bool
  deriving DecidableEq, Repr

/-- `sparql_append_string_literal`: the escaped string between double quotes is appended
to `sparql`; `tracker_sparql_escape_string` is Tracker's. -/
def sparql_append_string_literal (tracker_sparql_escape_string : Str → Str)
    (sparql str : Str) : Str :=
  let s := tracker_sparql_escape_string str
  sparql ++ ['"'] ++ s ++ ['"']

/-- The loop over the mime types (source lines 362-369): every element but the first is
preceded by ` || `; `first` tells whether `l` is still `mimetypes`. -/
def append_mime_terms (tracker_sparql_escape_string : Str → Str) :
    Str → Bool → List Str → Str
  | sparql, _, [] => sparql
  | sparql, first, data :: next =>
    let sparql := if !first then sparql ++ " || ".toList else sparql
    let sparql := sparql ++ "?mime = ".toList
    let sparql := sparql_append_string_literal tracker_sparql_escape_string sparql data
    append_mime_terms tracker_sparql_escape_string sparql false next

/-- The query text `nautilus_search_engine_tracker_start` builds, compiled without
`FTS_MATCHING` (file-name matching, source lines 344-377). -/
def tracker_start_sparql (tracker_sparql_escape_string : Str → Str) (search_text : Str)
    (mimetypes : List Str) : Str :=
  let mime_count := mimetypes.length
  let sparql := "SELECT nie:url(?urn) WHERE \x7b  ?urn a nfo:FileDataObject ;".toList
  let sparql := if mime_count > 0 then sparql ++ "nie:mimeType ?mime ;".toList else sparql
  let sparql := sparql ++
    "    tracker:available true .  FILTER (fn:contains(nfo:fileName(?urn),".toList
  let sparql := sparql_append_string_literal tracker_sparql_escape_string sparql search_text
  let sparql := sparql ++ ")".toList
  let sparql :=
    if mime_count > 0 then
      let sparql := sparql ++ " && ".toList
      let sparql := sparql ++ "(".toList
      let sparql := append_mime_terms tracker_sparql_escape_string sparql true mimetypes
      sparql ++ ")".toList
    else sparql
  let sparql := sparql ++ ")".toList
  sparql ++ "\x7d ORDER BY DESC(nie:url(?urn)) DESC(nfo:fileName(?urn))".toList

/-- `nautilus_search_engine_tracker_start`: the new details and the text handed to
`tracker_sparql_connection_query_async`, `none` when no query is sent (one is pending,
or no query is set). -/
def nautilus_search_engine_tracker_start (tracker_sparql_escape_string : Str → Str)
    (details : NautilusSearchEngineTrackerDetails) :
    NautilusSearchEngineTrackerDetails × Option Str :=
  if details.query_pending then (details, none)
  else
    match details.query with
    | none => (details, none)
    | some query =>
      let search_text := query.text
      let mimetypes := query.mime_types
      let sparql := tracker_start_sparql tracker_sparql_escape_string search_text mimetypes
      ({ details with query_pending := true }, some sparql)

/-- The signals the engine emits: `nautilus_search_engine_error`,
`nautilus_search_engine_finished` and `nautilus_search_engine_hits_added` with its list
of hits. -/
inductive SearchEvent where
  | error (message : Str)
  | finished
  | hits_added (hits : List (Option Str))
  deriving DecidableEq, Repr

/-- What one `tracker_sparql_cursor_next_finish` gives: its return value, the error it
set (if any), and the string `tracker_sparql_cursor_get_string (cursor, 0, NULL)` of
the row the cursor is then on. -/
structure CursorStep where
  success : Bool
  error : Option Str
  column0 : Option Str
  deriving DecidableEq, Repr

/-- `cursor_callback` together with the `cursor_next` it ends with: the cursor is the
list of the steps still to come, and each `cursor_next` brings the callback back with
the next step.  A cursor that delivers no further step brings no further callback. -/
def cursor_callback : List CursorStep → List SearchEvent
  | [] => []
  | step :: cursor =>
    match step.error with
    | some message => [SearchEvent.error message]
    | none =>
      if !step.success then [SearchEvent.finished]
      else SearchEvent.hits_added [step.column0] :: cursor_callback cursor

/-- What `tracker_sparql_connection_query_finish` gives: the cursor (or `NULL`) and the
error it set (if any). -/
structure QueryResult where
  cursor : Option (List CursorStep)
  error : Option Str
  deriving DecidableEq, Repr

/-- `query_callback`: the query is no longer pending; then the error, the end, or the
first `cursor_next`. -/
def query_callback (details : NautilusSearchEngineTrackerDetails) (result : QueryResult) :
    NautilusSearchEngineTrackerDetails × List SearchEvent :=
  let details := { details with query_pending := false }
  match result.error with
  | some message => (details, [SearchEvent.error message])
  | none =>
    match result.cursor with
    | none => (details, [SearchEvent.finished])
    | some cursor => (details, cursor_callback cursor)

/-- The nine entries of `funcs`: the symbols looked up in the Tracker library. -/
def funcs : List Str :=
  ["tracker_sparql_connection_get_type".toList,
   "tracker_sparql_connection_get".toList,
   "tracker_sparql_connection_query_async".toList,
   "tracker_sparql_connection_query_finish".toList,
   "tracker_sparql_cursor_get_type".toList,
   "tracker_sparql_cursor_next_async".toList,
   "tracker_sparql_cursor_next_finish".toList,
   "tracker_sparql_cursor_get_string".toList,
   "tracker_sparql_escape_string".toList]

/-- What `g_module_open (MODULE_FILENAME, flags)` and `g_module_symbol` find: whether
the library can be opened, and which symbols it has. -/
structure TrackerLibrary where
  g_module_open : Bool
  g_module_symbol : Str → Bool

/-- The static state of the file: `inited` of `init`, and whether the function pointers
are usable (all of them looked up in a module that is still open). -/
structure TrackerState where
  inited : Bool
  loaded : Bool
  deriving DecidableEq, Repr

/-- `init`: its return value and the new static state.  `inited` is set as soon as
the library has been opened, before the symbols are checked. -/
def init (library : TrackerLibrary) (state : TrackerState) : Bool × TrackerState :=
  if state.inited then (true, state)
  else if !library.g_module_open then (false, state)
  else
    let state := { state with inited := true }
    if funcs.all library.g_module_symbol then (true, { state with loaded := true })
    else (false, { state with loaded := false })

/-- What `tracker_sparql_connection_get` gives: the connection (if any) and the error it
set (if any). -/
structure ConnectionResult where
  connection : Bool
  error : Option Str
  deriving DecidableEq, Repr

/-- The outcome of `nautilus_search_engine_tracker_new`: `NULL`, a new engine, or a call
through the function pointer `tracker_sparql_connection_get` while the pointers are not
usable. -/
inductive NewEngine where
  | null
  | engine (details : NautilusSearchEngineTrackerDetails)
  | call_without_library
  deriving DecidableEq, Repr

def nautilus_search_engine_tracker_new (library : TrackerLibrary)
    (tracker_sparql_connection_get : ConnectionResult) (state : TrackerState) :
    NewEngine × TrackerState :=
  let r := init library state
  if !r.1 then (NewEngine.null, r.2)
  else if !r.2.loaded then (NewEngine.call_without_library, r.2)
  else
    match tracker_sparql_connection_get.error with
    | some _ => (NewEngine.null, r.2)
    | none =>
      if !tracker_sparql_connection_get.connection then (NewEngine.null, r.2)
      else (NewEngine.engine { query := none, query_pending := false }, r.2)

/-! ## `nautilus-list-view.c`: selections -/

/-- A `GtkTreePath`: the indices from the top level down to the row; its depth is
its length. -/
abbrev GtkTreePath := List Nat

/-- `gtk_tree_path_up`: the path of the parent, one index shorter. -/
def gtk_tree_path_up (path : GtkTreePath) : GtkTreePath := path.dropLast

def gtk_tree_path_get_depth (path : GtkTreePath) : Nat := path.length

/-- `gtk_tree_path_compare`: the order of the first indices that differ, else the order
of the depths. -/
def gtk_tree_path_compare : GtkTreePath → GtkTreePath → Int
  | a :: as, b :: bs =>
    if a = b then gtk_tree_path_compare as bs else if a < b then -1 else 1
  | [], [] => 0
  | [], _ :: _ => -1
  | _ :: _, [] => 1

/-- `gtk_tree_model_iter_parent` on the row at `child`: the parent row, if the row is
not at the top level. -/
def gtk_tree_model_iter_parent (child : GtkTreePath) : Option GtkTreePath :=
  if child.length ≥ 2 then some child.dropLast else none

/-- A tree selection: the paths of the selected rows, in the order
`gtk_tree_selection_selected_foreach` visits them (the order of the tree). -/
abbrev GtkTreeSelection := List GtkTreePath

def gtk_tree_selection_iter_is_selected (selection : GtkTreeSelection)
    (path : GtkTreePath) : Bool :=
  decide (path ∈ selection)

/-- The `while` loop of the transfer callback (source lines 2268-2275): climb from
`child` to the top level, stopping at the first ancestor that is selected.  `depth`
bounds the climb; the depth of `child` is enough. -/
def parent_is_selected_loop (selection : GtkTreeSelection) : Nat → GtkTreePath → Bool
  | 0, _ => false
  | depth + 1, child =>
    match gtk_tree_model_iter_parent child with
    | none => false
    | some parent =>
      if gtk_tree_selection_iter_is_selected selection parent then true
      else parent_is_selected_loop selection depth parent

/-- `nautilus_list_view_get_selection_for_file_transfer_foreach_func`: the list after
the row at `path` has been visited; `file_column` is the file column of the model. -/
def nautilus_list_view_get_selection_for_file_transfer_foreach_func
    (file_column : GtkTreePath → Option Str) (selection : GtkTreeSelection)
    (list : List Str) (path : GtkTreePath) : List Str :=
  match file_column path with
  | none => list
  | some file =>
    if parent_is_selected_loop selection path.length path then list
    else file :: list

def nautilus_list_view_get_selection_for_file_transfer
    (file_column : GtkTreePath → Option Str) (selection : GtkTreeSelection) : List Str :=
  (selection.foldl
    (nautilus_list_view_get_selection_for_file_transfer_foreach_func file_column selection)
    []).reverse

structure HasCommonParentData where
  path : Option GtkTreePath
  is_common : Bool
  is_root : Bool
  deriving DecidableEq, Repr

def tree_selection_has_common_parent_foreach_func (data : HasCommonParentData)
    (path : GtkTreePath) : HasCommonParentData :=
  let parent_path := gtk_tree_path_up path
  let has_parent := decide (gtk_tree_path_get_depth parent_path > 0)
  let data := if !has_parent then { data with is_root := true } else data
  if data.is_common && !data.is_root then
    match data.path with
    | none => { data with path := some parent_path }
    | some common =>
      if gtk_tree_path_compare common parent_path != 0 then { data with is_common := false }
      else data
  else data

/-- `tree_selection_has_common_parent`: the pair `(is_common, is_root)` it writes. -/
def tree_selection_has_common_parent (selection : GtkTreeSelection) : Bool × Bool :=
  let data : HasCommonParentData := { path := none, is_common := true, is_root := false }
  let data := selection.foldl tree_selection_has_common_parent_foreach_func data
  (data.is_common, data.is_root)

/-! ## `nautilus-application.c`: a mount is removed -/

namespace Application

/-- A slot: `id` stands for its address, `location` for the URI of `slot->location`. -/
structure NautilusWindowSlot where
  id : Nat
  location : Option Str
  deriving DecidableEq, Repr

structure NautilusWindowPane where
  slots : List NautilusWindowSlot
  deriving DecidableEq, Repr

/-- A window of the application: whether it is a `NautilusDesktopWindow`, and its
panes. -/
structure NautilusWindow where
  is_desktop_window : Bool
  panes : List NautilusWindowPane
  deriving DecidableEq, Repr

/-- What `mount_removed_callback` asks about files and slots, for the mount removed:
`g_file_has_prefix` and `g_file_equal` on a location and the root of the mount, and
`nautilus_window_slot_should_close_with_mount`. -/
structure MountEnv where
  g_file_has_prefix : Str → Str → Bool
  g_file_equal : Str → Str → Bool
  nautilus_window_slot_should_close_with_mount : NautilusWindowSlot → Bool

/-- What is done to a slot: `nautilus_window_pane_slot_close`, or
`nautilus_window_slot_go_to` the home directory. -/
inductive SlotAction where
  | nautilus_window_pane_slot_close (slot : Nat)
  | nautilus_window_slot_go_to_home (slot : Nat)
  deriving DecidableEq, Repr

def window_can_be_closed (window : NautilusWindow) : Bool :=
  if !window.is_desktop_window then true else false

def get_first_navigation_slot (slot_list : List NautilusWindowSlot) :
    Option NautilusWindowSlot :=
  match slot_list with
  | [] => none
  | data :: _ => some data

def should_close_slot_with_mount (env : MountEnv) (slot : NautilusWindowSlot) : Bool :=
  env.nautilus_window_slot_should_close_with_mount slot

/-- The test on the location of a slot (source lines 801-803). -/
def slot_is_on_mount (env : MountEnv) (root : Str) (slot : NautilusWindowSlot) : Bool :=
  match slot.location with
  | none => true
  | some location => env.g_file_has_prefix location root || env.g_file_equal location root

/-- The body of the innermost loop (source lines 799-812) on the pair
`(close_list, unclosed_slot)`. -/
def visit_slot (env : MountEnv) (root : Str) (acc : List NautilusWindowSlot × Bool)
    (slot : NautilusWindowSlot) : List NautilusWindowSlot × Bool :=
  if slot_is_on_mount env root slot then
    let close_list := slot :: acc.1
    if !should_close_slot_with_mount env slot then (close_list, true)
    else (close_list, acc.2)
  else (acc.1, true)

/-- The first loop (source lines 788-816): over the windows, their panes and their
slots; a `NULL` window and a window that cannot be closed are passed over. -/
def construct_close_list (env : MountEnv) (root : Str)
    (window_list : List (Option NautilusWindow)) : List NautilusWindowSlot × Bool :=
  window_list.foldl (fun acc node =>
    match node with
    | none => acc
    | some window =>
      if window_can_be_closed window then
        window.panes.foldl (fun acc pane => pane.slots.foldl (visit_slot env root) acc) acc
      else acc) ([], false)

/-- The slot kept open (source lines 818-822); `desktop_windows` tells whether
`nautilus_application_desktop_windows` is not `NULL`. -/
def force_no_close_slot (env : MountEnv) (root : Str)
    (window_list : List (Option NautilusWindow)) (desktop_windows : Bool) :
    Option NautilusWindowSlot :=
  let r := construct_close_list env root window_list
  if !desktop_windows && !r.2 then get_first_navigation_slot r.1 else none

/-- `mount_removed_callback`: the actions on the slots of the close list, in the order
of the list. -/
def mount_removed_callback (env : MountEnv) (root : Str)
    (window_list : List (Option NautilusWindow)) (desktop_windows : Bool) :
    List SlotAction :=
  let close_list := (construct_close_list env root window_list).1
  let force_no_close_slot := force_no_close_slot env root window_list desktop_windows
  close_list.map (fun slot =>
    if should_close_slot_with_mount env slot &&
        !(some slot.id == force_no_close_slot.map (fun s => s.id)) then
      SlotAction.nautilus_window_pane_slot_close slot.id
    else SlotAction.nautilus_window_slot_go_to_home slot.id)

/-- The slots of the windows of the list, in the order of the windows, panes and
slots. -/
def window_slots (window_list : List (Option NautilusWindow)) : List NautilusWindowSlot :=
  window_list.flatMap (fun node =>
    match node with
    | none => []
    | some window => window.panes.flatMap (fun pane => pane.slots))

/-- The slots of the windows that can be closed, in the order the first loop visits
them. -/
def closable_slots (window_list : List (Option NautilusWindow)) : List NautilusWindowSlot :=
  window_list.flatMap (fun node =>
    match node with
    | none => []
    | some window =>
      if window_can_be_closed window then window.panes.flatMap (fun pane => pane.slots)
      else [])

end Application

/-! ## `nautilus-dbus-manager.c`: registration and disposal -/

/-- The session bus as the manager sees it: the objects registered on the connection
(registration id and interface), the owner ids of the names owned through
`g_bus_own_name`, and the number of registration ids given out so far. -/
structure SessionBus where
  registered : List (Nat × Str)
  owned : List Nat
  last_registration_id : Nat
  deriving DecidableEq, Repr

/-- The fields `connection`, `owner_id` and `registration_id` of `NautilusDBusManager`. -/
structure NautilusDBusManager where
  connection : Bool
  owner_id : Nat
  registration_id : Nat
  deriving DecidableEq, Repr

/-- `g_dbus_connection_register_object` for one interface: on success the object is
registered under a new non-zero id, which is returned; on failure 0 is returned and
the error is set. -/
def g_dbus_connection_register_object (succeeds : Bool) (bus : SessionBus)
    (interface_name : Str) : Nat × SessionBus :=
  if succeeds then
    (bus.last_registration_id + 1,
     { bus with registered := bus.registered ++ [(bus.last_registration_id + 1, interface_name)],
                last_registration_id := bus.last_registration_id + 1 })
  else (0, bus)

def g_dbus_connection_unregister_object (bus : SessionBus) (registration_id : Nat) :
    SessionBus :=
  { bus with registered := bus.registered.filter (fun r => !(r.1 == registration_id)) }

def g_bus_unown_name (bus : SessionBus) (owner_id : Nat) : SessionBus :=
  { bus with owned := bus.owned.filter (fun o => !(o == owner_id)) }

/-- `bus_acquired_handler_cb`.  `xml_parses` tells whether `g_dbus_node_info_new_for_xml`
accepts the introspection data, `register_first` and `register_second` whether the
two registrations succeed.  The result of the second registration replaces that of
the first in `registration_id`. -/
def bus_acquired_handler_cb (xml_parses register_first register_second : Bool)
    (self : NautilusDBusManager) (bus : SessionBus) : NautilusDBusManager × SessionBus :=
  let self := { self with connection := true }
  if !xml_parses then
    ({ self with owner_id := 0 }, g_bus_unown_name bus self.owner_id)
  else
    let r1 := g_dbus_connection_register_object register_first bus
      "org.gnome.Nautilus.FileOperations".toList
    let self := { self with registration_id := r1.1 }
    let r2 := g_dbus_connection_register_object register_second r1.2
      "org.gnome.Nautilus.FileManager1".toList
    let self := { self with registration_id := r2.1 }
    if !register_first || !register_second then
      (self, g_bus_unown_name r2.2 self.owner_id)
    else (self, r2.2)

def nautilus_dbus_manager_dispose (self : NautilusDBusManager) (bus : SessionBus) :
    NautilusDBusManager × SessionBus :=
  let r :=
    if self.registration_id != 0 then
      ({ self with registration_id := 0 },
       g_dbus_connection_unregister_object bus self.registration_id)
    else (self, bus)
  let r :=
    if r.1.owner_id != 0 then
      ({ r.1 with owner_id := 0 }, g_bus_unown_name r.2 r.1.owner_id)
    else r
  ({ r.1 with connection := false }, r.2)

/-! ## `nautilus-list-view.c`: renaming a file and button presses -/

/-- A `NautilusFile *`: files are told apart by their address. -/
abbrev NautilusFile := Nat

/-- The types of the events a `button-press-event` handler receives. -/
inductive GdkEventType where
  | GDK_BUTTON_PRESS
  | GDK_2BUTTON_PRESS
  | GDK_3BUTTON_PRESS
  deriving DecidableEq

/-- The fields of a `GdkEventButton` the list view reads.  The coordinates are C
doubles; every finite double is a rational number. -/
structure GdkEventButton where
  type : GdkEventType
  /-- Whether `event->window` is the bin window of the tree view. -/
  in_bin_window : Bool
  x : ℚ
  y : ℚ
  /-- The bit `GDK_SHIFT_MASK` of `event->state`. -/
  shift_mask : Bool
  /-- The bit `GDK_CONTROL_MASK` of `event->state`. -/
  control_mask : Bool
  button : Nat
  deriving DecidableEq

inductive NautilusClickPolicy where
  | NAUTILUS_CLICK_POLICY_SINGLE
  | NAUTILUS_CLICK_POLICY_DOUBLE
  deriving DecidableEq

/-- The bits of a `NautilusWindowOpenFlags` value; a value is the list of its bits. -/
inductive NautilusWindowOpenFlag where
  | NAUTILUS_WINDOW_OPEN_FLAG_CLOSE_BEHIND
  | NAUTILUS_WINDOW_OPEN_FLAG_NEW_WINDOW
  | NAUTILUS_WINDOW_OPEN_FLAG_NEW_TAB
  deriving DecidableEq

/-- The calls the callbacks make into GTK and into the rest of Nautilus, with the
arguments that vary. -/
inductive ListViewCall where
  | nautilus_list_model_set_drag_view (x y : ℚ)
  /-- The default handler, `tree_view_class->button_press_event`; `blocked` tells
  whether `row_activated_callback` is blocked around the call. -/
  | button_press_event (event : GdkEventButton) (blocked : Bool)
  | gtk_tree_selection_unselect_all
  | gtk_tree_selection_select_path (path : GtkTreePath)
  | gtk_tree_selection_select_range (start_path end_path : GtkTreePath)
  | gtk_tree_view_set_cursor (path : GtkTreePath)
  | gtk_widget_grab_focus
  | nautilus_view_pop_up_selection_context_menu (event : GdkEventButton)
  | nautilus_view_pop_up_background_context_menu (event : GdkEventButton)
  /-- The call `g_timeout_add (interval, activate_selected_items, view)`. -/
  | g_timeout_add (interval : Nat)
  | g_source_remove (tag : Nat)
  | nautilus_view_activate_files (file_list : List NautilusFile)
      (flags : List NautilusWindowOpenFlag)
  /-- The connection of `editable_focus_out_cb` to `focus-out-event` of the entry. -/
  | g_signal_connect_focus_out_event (entry : Nat)
  | nautilus_clipboard_set_up_editable (entry : Nat)
  /-- The call `g_object_set (file_name_cell, "editable", editable, NULL)`. -/
  | g_object_set_editable (editable : Bool)
  | nautilus_view_unfreeze_updates
  | nautilus_rename_file (file : Option NautilusFile) (new_name : Str)
  deriving DecidableEq

/-- What the callbacks read from GTK, GSettings and the list model, as functions of
the state `W` of the widgets and of the rest of the program, and what a call does to
that state. -/
structure ListViewEnv (W : Type) where
  perform : W → ListViewCall → W
  /-- The time in microseconds, a `gint64`. -/
  eel_get_system_time : W → Int
  /-- The setting `gtk-double-click-time`, in milliseconds, an `int`. -/
  gtk_double_click_time : W → Int
  get_click_policy : W → NautilusClickPolicy
  /-- The path of the row at a position of the bin window, if there is one; paths of
  rows have depth 1 or more. -/
  gtk_tree_view_get_path_at_pos : W → Int → Int → Option GtkTreePath
  /-- The style property `expander-size`, an `int`. -/
  expander_size : W → Int
  /-- The style property `horizontal-separator`, an `int`. -/
  horizontal_separator : W → Int
  /-- The selected rows of the tree view. -/
  gtk_tree_view_get_selection : W → GtkTreeSelection
  gtk_tree_view_get_cursor : W → Option GtkTreePath
  /-- The files of the selected rows. -/
  nautilus_list_view_get_selection : W → List NautilusFile
  nautilus_list_model_file_for_path : W → GtkTreePath → Option NautilusFile
  /-- The setting `NAUTILUS_PREFERENCES_ALWAYS_USE_BROWSER`. -/
  always_use_browser : W → Bool
  /-- The source id the next `g_timeout_add` returns. -/
  next_source_id : W → Nat
  /-- The file in the file column of the row whose path, as a string, is given. -/
  file_column_of_path_string : W → Str → Option NautilusFile

/-- The fields of `NautilusListViewDetails` the callbacks below use.
`double_click_path` is the array of two paths: `.1` is `double_click_path[0]` and
`.2` is `double_click_path[1]`. -/
structure NautilusListViewDetails where
  editable_widget : Option Nat
  double_click_path : Option GtkTreePath × Option GtkTreePath
  drag_button : Nat
  drag_x : Int
  drag_y : Int
  drag_started : Bool
  ignore_button_release : Bool
  row_selected_on_button_down : Bool
  original_name : Option Str
  renaming_file : Option NautilusFile
  rename_done : Bool
  renaming_file_activate_timeout : Nat
  deriving DecidableEq

/-- The details of a list view after `nautilus_list_view_init`: the structure is
allocated zeroed. -/
def nautilus_list_view_init : NautilusListViewDetails :=
  { editable_widget := none, double_click_path := (none, none), drag_button := 0,
    drag_x := 0, drag_y := 0, drag_started := false, ignore_button_release := false,
    row_selected_on_button_down := false, original_name := none, renaming_file := none,
    rename_done := false, renaming_file_activate_timeout := 0 }

/-- A list view in the middle of a callback: its details, the state of the widgets
and the calls made so far, oldest first. -/
structure ListView (W : Type) where
  details : NautilusListViewDetails
  world : W
  calls : List ListViewCall

/-- Make a call: it acts on the widgets and is recorded. -/
def ListView.call {W : Type} (env : ListViewEnv W) (view : ListView W)
    (c : ListViewCall) : ListView W :=
  { view with world := env.perform view.world c, calls := view.calls ++ [c] }

/-- The value of a C `int` computation: the exact result reduced to 32 bits in two's
complement. -/
def wrap_gint (n : Int) : Int := (n + 2147483648) % 4294967296 - 2147483648

/-- The value of a `gint64` computation: the exact result reduced to 64 bits in two's
complement. -/
def wrap_gint64 (n : Int) : Int :=
  (n + 9223372036854775808) % 18446744073709551616 - 9223372036854775808

/-- The conversion of a C double to `int`: the fraction is dropped, and a value out of
the range of `int` gives `INT_MIN`, the result of the conversion instruction of x86. -/
def gint_of_gdouble (x : ℚ) : Int :=
  let n := Int.tdiv x.num x.den
  if -2147483648 ≤ n ∧ n ≤ 2147483647 then n else -2147483648

/-- The static variables of `button_press_callback`; both start at 0. -/
structure ButtonPressStatics where
  last_click_time : Int
  click_count : Int
  deriving DecidableEq

/-- The block under the comment "Determine click count".  The times are `gint64`;
`double_click_time` and `click_count` are `int`, so the product
`double_click_time * 1000` and the increment are those of 32-bit integers. -/
def determine_click_count {W : Type} (env : ListViewEnv W) (statics : ButtonPressStatics)
    (w : W) : ButtonPressStatics :=
  let current_time := env.eel_get_system_time w
  { last_click_time := current_time,
    click_count :=
      if wrap_gint64 (current_time - statics.last_click_time) <
          wrap_gint (env.gtk_double_click_time w * 1000) then
        wrap_gint (statics.click_count + 1)
      else 0 }

/-- `cell_renderer_editing_started_cb`; `text` is the text of the entry,
`gtk_entry_get_text (entry)`. -/
def cell_renderer_editing_started_cb {W : Type} (env : ListViewEnv W) (view : ListView W)
    (editable : Nat) (text : Str) : ListView W :=
  let view := { view with details :=
    { view.details with editable_widget := some editable, original_name := some text } }
  let view := view.call env (.g_signal_connect_focus_out_event editable)
  view.call env (.nautilus_clipboard_set_up_editable editable)

/-- `cell_renderer_edited`.  The result is `none` where the C code has no defined
result: `strcmp` on an `original_name` that is `NULL`.  Reference counts are not
modelled. -/
def cell_renderer_edited {W : Type} (env : ListViewEnv W) (view : ListView W)
    (path_str new_text : Str) : Option (ListView W) :=
  let view := { view with details := { view.details with editable_widget := none } }
  -- Do not allow a rename with an empty string.
  if new_text.isEmpty then
    let view := view.call env (.g_object_set_editable false)
    some (view.call env .nautilus_view_unfreeze_updates)
  else
    let file := env.file_column_of_path_string view.world path_str
    match view.details.original_name with
    | none => none
    | some original_name =>
      -- Only rename if name actually changed
      let view :=
        if !strcmp_eq new_text original_name then
          let view := { view with details :=
            { view.details with renaming_file := file, rename_done := false } }
          let view := view.call env (.nautilus_rename_file file new_text)
          { view with details := { view.details with original_name := some new_text } }
        else view
      -- Done editing: make the filename-cells readonly again.
      let view := view.call env (.g_object_set_editable false)
      some (view.call env .nautilus_view_unfreeze_updates)

/-- Whether a call starts a rename. -/
def starts_rename : ListViewCall → Bool
  | .nautilus_rename_file _ _ => true
  | _ => false

/-- A process environment with the single language `C` and the ASCII letters and digits
as alphanumeric characters. -/
def example_glib_env : GLibEnv :=
  { g_get_language_names := ["C".toList],
    g_unichar_isalnum := fun c => g_ascii_isalpha c || g_ascii_isdigit c }

/-- The GLib model with files that have no parent. -/
def example_deps : LinkDeps GKeyFile :=
  glib_deps example_glib_env (fun _ => none) (fun _ _ => none) "folder".toList

def example_link_text : Str := "[Desktop Entry]\nType=Link\nURL=file:///tmp\n".toList

def example_key_file : GKeyFile :=
  { groups := [{ name := "Desktop Entry".toList,
                 key_value_pairs := [("URL".toList, "file:///tmp".toList),
                                     ("Type".toList, "Link".toList)] }],
    start_group := some "Desktop Entry".toList,
    current_group := some "Desktop Entry".toList }

/-- A directory `file:///home/u` that is neither trash, search nor desktop, where every
write succeeds and children are named `directory/name`. -/
def example_create_env : LinkCreateEnv :=
  { eel_uri_is_trash := fun _ => false,
    eel_uri_is_search := fun _ => false,
    eel_uri_is_desktop := fun _ => false,
    nautilus_get_desktop_directory_uri := "file:///home/u/Desktop".toList,
    nautilus_ensure_unique_file_name := fun dir base ext =>
      some (dir ++ "/".toList ++ base ++ ext),
    g_file_get_child := fun dir name => dir ++ "/".toList ++ name,
    g_file_replace_contents := fun _ _ => true }

/-- An environment in which the self checks pass and every argument converts. -/
def example_app_env : ApplicationEnv :=
  { PACKAGE_VERSION := "3.0".toList,
    self_checks_failed := fun _ => false,
    check_required_directories := true,
    show_desktop_preference := true,
    nautilus_get_accel_map_file := none,
    g_file_new_for_commandline_arg := fun arg => some arg,
    g_file_get_uri := fun file => some file }

/-- The command line `nautilus --check --no-desktop`. -/
def check_with_no_desktop : CommandLineOptions :=
  { perform_self_check := true, version := false, geometry := none,
    no_default_window := false, no_desktop := true, kill_shell := false, remaining := none }

/-- The command line `nautilus --check --quit`. -/
def check_with_quit : CommandLineOptions :=
  { perform_self_check := true, version := false, geometry := none,
    no_default_window := false, no_desktop := false, kill_shell := true, remaining := none }

/-- The command line `nautilus --geometry 800x600 file:///a file:///b`. -/
def geometry_with_two_uris : CommandLineOptions :=
  { perform_self_check := false, version := false, geometry := some "800x600".toList,
    no_default_window := false, no_desktop := false, kill_shell := false,
    remaining := some ["file:///a".toList, "file:///b".toList] }

/-- The command line `nautilus --no-default-window file:///a file:///b`. -/
def no_default_window_with_two_uris : CommandLineOptions :=
  { perform_self_check := false, version := false, geometry := none,
    no_default_window := true, no_desktop := false, kill_shell := false,
    remaining := some ["file:///a".toList, "file:///b".toList] }

/-- A query for `report` among plain-text and PNG files. -/
def example_tracker_details : NautilusSearchEngineTrackerDetails :=
  { query := some { text := "report".toList, location_uri := none,
                    mime_types := ["text/plain".toList, "image/png".toList] },
    query_pending := false }

/-- A Tracker library that can be opened and has every symbol but
`tracker_sparql_escape_string`. -/
def library_without_escape_string : TrackerLibrary :=
  { g_module_open := true,
    g_module_symbol := fun name => !(name == "tracker_sparql_escape_string".toList) }

/-- A manager that owns the bus name under owner id 1, before the bus is acquired. -/
def example_dbus_manager : NautilusDBusManager :=
  { connection := false, owner_id := 1, registration_id := 0 }

def example_session_bus : SessionBus :=
  { registered := [], owned := [1], last_registration_id := 0 }

/-- A link with an icon name ending in `.svg`. -/
def svg_icon_text : Str := "[Desktop Entry]\nType=Application\nIcon=foo.svg\n".toList

/-- A link whose icon is an absolute path. -/
def absolute_icon_link_text : Str :=
  "[Desktop Entry]\nType=Link\nURL=file:///tmp\nIcon=/usr/share/pixmaps/a.png\n".toList

/-- A mount environment where a location lies under the root when the root's URI
followed by `/` starts it, and every slot should close with the mount. -/
def example_mount_env : Application.MountEnv :=
  { g_file_has_prefix := fun location root =>
      (root ++ "/".toList) == location.take (root.length + 1),
    g_file_equal := fun location root => location == root,
    nautilus_window_slot_should_close_with_mount := fun _ => true }

/-- One navigation window with two slots, both on the mount `file:///media/usb`. -/
def example_navigation_windows : List (Option Application.NautilusWindow) :=
  [some { is_desktop_window := false,
          panes := [{ slots := [{ id := 1, location := some "file:///media/usb/photos".toList },
                                { id := 2, location := some "file:///media/usb".toList }] }] }]

/-- A navigation window with a slot on the mount and a slot elsewhere, and a desktop
window. -/
def example_windows_with_desktop : List (Option Application.NautilusWindow) :=
  [some { is_desktop_window := false,
          panes := [{ slots := [{ id := 1, location := some "file:///media/usb/photos".toList },
                                { id := 2, location := some "file:///home/u".toList }] }] },
   some { is_desktop_window := true,
          panes := [{ slots := [{ id := 3, location := none }] }] }]

/-- A small state of the widgets: the clock in microseconds, the click policy and the
selected rows. -/
structure ExampleWidgets where
  system_time : Int
  click_policy : NautilusClickPolicy
  selection : GtkTreeSelection

/-- A list of three top-level rows, each 28 pixels high; the file of row `n` is `n`.
The double-click time is 400 ms, the expander size 12 and the horizontal separator 2,
so that the expander of a top-level row ends at x = 17. -/
def example_list_view_env : ListViewEnv ExampleWidgets :=
  { perform := fun w c =>
      match c with
      | .gtk_tree_selection_unselect_all => { w with selection := [] }
      | .gtk_tree_selection_select_path path => { w with selection := w.selection ++ [path] }
      | .gtk_tree_view_set_cursor path => { w with selection := [path] }
      | _ => w,
    eel_get_system_time := fun w => w.system_time,
    gtk_double_click_time := fun _ => 400,
    get_click_policy := fun w => w.click_policy,
    gtk_tree_view_get_path_at_pos := fun _ _ y =>
      if 0 ≤ y ∧ y < 84 then some [(y / 28).toNat] else none,
    expander_size := fun _ => 12,
    horizontal_separator := fun _ => 2,
    gtk_tree_view_get_selection := fun w => w.selection,
    gtk_tree_view_get_cursor := fun _ => none,
    nautilus_list_view_get_selection := fun w => w.selection.map (fun path => path.headD 0),
    nautilus_list_model_file_for_path := fun _ path => path.head?,
    always_use_browser := fun _ => false,
    next_source_id := fun _ => 1,
    file_column_of_path_string := fun _ path_str =>
      if path_str = "0".toList then some 0 else none }

/-- The widgets at a time, with a click policy and a selection. -/
def example_widgets (system_time : Int) (click_policy : NautilusClickPolicy)
    (selection : GtkTreeSelection) : ExampleWidgets :=
  { system_time := system_time, click_policy := click_policy, selection := selection }

/-- A list view that is editing the name `a.txt`. -/
def example_editing_view : ListView ExampleWidgets :=
  { details := { nautilus_list_view_init with
      editable_widget := some 1, original_name := some "a.txt".toList },
    world := example_widgets 0 .NAUTILUS_CLICK_POLICY_DOUBLE [],
    calls := [] }

/-! # Theorems -/

/-! ## The reader of `.desktop` files -/

theorem example_link_text_loads :
    example_deps.g_key_file_load_from_data example_link_text = some example_key_file := by
  decide

/-- C1: for a text that parses, the link target read before the relative-path
resolution is absent when there is no `Type`, the value of `Exec` when `Type` is `URL`,
the value of `URL` when `Type` is `Link`, `FSDevice`, `X-nautilus-trash` or
`X-nautilus-home`, and absent for every other `Type`; the `uri` output is that target
after the relative-path resolution, and is the target itself when no file URI is given. -/
theorem c1_link_target_by_type {KF : Type} (D : LinkDeps KF) (file_contents : Str)
    (file_uri : Option Str) (key_file : KF)
    (h : D.g_key_file_load_from_data file_contents = some key_file) :
    ∃ info, nautilus_link_get_link_info_given_file_contents D file_contents file_uri = some info ∧
      info.uri = resolve_local_file_name D
        (nautilus_link_get_link_uri_from_desktop_retval D key_file) file_uri ∧
      (file_uri = none → info.uri = nautilus_link_get_link_uri_from_desktop_retval D key_file) ∧
      (D.g_key_file_get_string key_file MAIN_GROUP "Type".toList = none →
        nautilus_link_get_link_uri_from_desktop_retval D key_file = none) ∧
      (D.g_key_file_get_string key_file MAIN_GROUP "Type".toList = some "URL".toList →
        nautilus_link_get_link_uri_from_desktop_retval D key_file =
          D.g_key_file_get_string key_file MAIN_GROUP "Exec".toList) ∧
      (∀ type, D.g_key_file_get_string key_file MAIN_GROUP "Type".toList = some type →
        type ∈ ["Link".toList, "FSDevice".toList, "X-nautilus-trash".toList,
                "X-nautilus-home".toList] →
        nautilus_link_get_link_uri_from_desktop_retval D key_file =
          D.g_key_file_get_string key_file MAIN_GROUP "URL".toList) ∧
      (∀ type, D.g_key_file_get_string key_file MAIN_GROUP "Type".toList = some type →
        type ∉ ["URL".toList, "Link".toList, "FSDevice".toList, "X-nautilus-trash".toList,
                "X-nautilus-home".toList] →
        nautilus_link_get_link_uri_from_desktop_retval D key_file = none) := by
  refine ⟨_, by simp [nautilus_link_get_link_info_given_file_contents, h]; rfl, rfl, ?_, ?_, ?_, ?_, ?_⟩
  · intro hf
    subst hf
    simp [nautilus_link_get_link_uri_from_desktop, resolve_local_file_name]
  · intro ht
    unfold nautilus_link_get_link_uri_from_desktop_retval
    rw [ht]
  · intro ht
    unfold nautilus_link_get_link_uri_from_desktop_retval
    rw [ht]
    simp [strcmp_eq]
  · intro type ht hmem
    unfold nautilus_link_get_link_uri_from_desktop_retval
    rw [ht]
    simp only [List.mem_cons, List.mem_singleton, List.not_mem_nil, or_false] at hmem
    rcases hmem with rfl | rfl | rfl | rfl <;>
      simp [strcmp_eq, NAUTILUS_LINK_GENERIC_TAG, NAUTILUS_LINK_MOUNT_TAG,
        NAUTILUS_LINK_TRASH_TAG, NAUTILUS_LINK_HOME_TAG]
  · intro type ht hmem
    unfold nautilus_link_get_link_uri_from_desktop_retval
    rw [ht]
    simp only [List.mem_cons, List.mem_singleton, List.not_mem_nil, or_false, not_or] at hmem
    obtain ⟨h1, h2, h3, h4, h5⟩ := hmem
    simp only [strcmp_eq, NAUTILUS_LINK_GENERIC_TAG, NAUTILUS_LINK_MOUNT_TAG,
      NAUTILUS_LINK_TRASH_TAG, NAUTILUS_LINK_HOME_TAG]
    rw [if_neg (by simpa using h1), if_neg]
    simp only [Bool.or_eq_true, beq_iff_eq]
    tauto

theorem c1_link_target_by_type_witness :
    example_deps.g_key_file_load_from_data example_link_text = some example_key_file ∧
    ∃ info, nautilus_link_get_link_info_given_file_contents example_deps example_link_text none
        = some info ∧ info.uri = some "file:///tmp".toList := by
  refine ⟨example_link_text_loads, ?_⟩
  obtain ⟨info, h1, _, h3, _⟩ :=
    c1_link_target_by_type example_deps example_link_text none example_key_file
      example_link_text_loads
  exact ⟨info, h1, by rw [h3 rfl]; decide⟩

theorem char_toNat_ne_zero (c : Char) (h : c ≠ Char.ofNat 0) : c.toNat ≠ 0 := by
  intro h0
  apply h
  apply Char.ext
  apply UInt32.ext
  simpa [Char.toNat] using h0

/-- On strings without a NUL character `g_ascii_strcasecmp` answers 0 exactly when the
two strings are equal after ASCII lower-casing. -/
theorem g_ascii_strcasecmp_eq_zero_iff (a b : Str) (ha : Char.ofNat 0 ∉ a)
    (hb : Char.ofNat 0 ∉ b) :
    g_ascii_strcasecmp a b = 0 ↔ a.map g_ascii_tolower = b.map g_ascii_tolower := by
  induction a generalizing b with
  | nil =>
    cases b with
    | nil => simp [g_ascii_strcasecmp]
    | cons c2 s2 =>
      have hc : c2 ≠ Char.ofNat 0 := fun e => hb (by simp [e])
      have := char_toNat_ne_zero c2 hc
      simp [g_ascii_strcasecmp]
      omega
  | cons c1 s1 ih =>
    cases b with
    | nil =>
      have hc : c1 ≠ Char.ofNat 0 := fun e => ha (by simp [e])
      have := char_toNat_ne_zero c1 hc
      simp [g_ascii_strcasecmp]
      omega
    | cons c2 s2 =>
      have ha1 : Char.ofNat 0 ∉ s1 := fun e => ha (List.mem_cons_of_mem _ e)
      have hb1 : Char.ofNat 0 ∉ s2 := fun e => hb (List.mem_cons_of_mem _ e)
      unfold g_ascii_strcasecmp
      by_cases hne : (g_ascii_tolower c1).toNat ≠ (g_ascii_tolower c2).toNat
      · rw [if_pos hne]
        have hcne : g_ascii_tolower c1 ≠ g_ascii_tolower c2 := fun e => hne (by rw [e])
        simp only [List.map_cons, List.cons.injEq, hcne, false_and, iff_false]
        omega
      · rw [if_neg hne]
        have heq : g_ascii_tolower c1 = g_ascii_tolower c2 := by
          have h1 : (g_ascii_tolower c1).toNat = (g_ascii_tolower c2).toNat := by omega
          apply Char.ext
          apply UInt32.ext
          simpa [Char.toNat] using h1
        simp only [List.map_cons, List.cons.injEq, heq, true_and]
        exact ih s2 ha1 hb1

/-- C2: for a text that parses, `is_foreign` is true exactly when the `OnlyShowIn`
list is present and none of its entries compares equal to `GNOME` under
`g_ascii_strcasecmp`, or the `NotShowIn` list is present and one of its entries does;
and for an entry without NUL that comparison is equality after ASCII lower-casing. -/
theorem c2_is_foreign {KF : Type} (D : LinkDeps KF) (file_contents : Str)
    (file_uri : Option Str) (key_file : KF)
    (h : D.g_key_file_load_from_data file_contents = some key_file) :
    ∃ info, nautilus_link_get_link_info_given_file_contents D file_contents file_uri = some info ∧
      (info.is_foreign = true ↔
        ((∃ only_show_in,
            D.g_key_file_get_string_list key_file MAIN_GROUP "OnlyShowIn".toList
              = some only_show_in ∧
            ∀ e ∈ only_show_in, g_ascii_strcasecmp e "GNOME".toList ≠ 0) ∨
         (∃ not_show_in,
            D.g_key_file_get_string_list key_file MAIN_GROUP "NotShowIn".toList
              = some not_show_in ∧
            ∃ e ∈ not_show_in, g_ascii_strcasecmp e "GNOME".toList = 0))) ∧
      (∀ e : Str, Char.ofNat 0 ∉ e →
        (g_ascii_strcasecmp e "GNOME".toList = 0 ↔
          e.map g_ascii_tolower = "gnome".toList)) := by
  refine ⟨_, by simp only [nautilus_link_get_link_info_given_file_contents, h]; rfl, ?_, ?_⟩
  · cases h1 : D.g_key_file_get_string_list key_file MAIN_GROUP "OnlyShowIn".toList <;>
      cases h2 : D.g_key_file_get_string_list key_file MAIN_GROUP "NotShowIn".toList <;>
      simp only [string_array_contains, Option.isSome_none, Option.isSome_some, Bool.false_and,
        Bool.true_and, Bool.false_eq_true, if_false, Bool.not_eq_true', List.any_eq_true,
        List.any_eq_false, beq_iff_eq, ite_eq_left_iff, reduceCtorEq, false_and, exists_false,
        or_false, false_or, Option.some.injEq, exists_eq_left', imp_false, not_not, ne_eq,
        iff_false, not_false_eq_true, Bool.not_eq_false, not_exists, not_and, Bool.not_false,
        if_true_left]
    · rename_i l
      constructor
      · intro hx
        by_contra hn
        exact hx (fun x hxl hp => hn ⟨x, hxl, hp⟩)
      · rintro ⟨x, hxl, hp⟩ hall
        exact hall x hxl hp
    · rename_i l1 l2
      constructor
      · intro hx
        by_cases hn : ∃ x ∈ l2, g_ascii_strcasecmp x "GNOME".toList = 0
        · exact Or.inr hn
        · exact Or.inl (hx (fun x hxl hp => hn ⟨x, hxl, hp⟩))
      · rintro (hl | ⟨x, hxl, hp⟩) hall
        · exact hl
        · exact absurd hp (hall x hxl)
  · intro e he
    rw [g_ascii_strcasecmp_eq_zero_iff e _ he (by decide)]
    have : List.map g_ascii_tolower "GNOME".toList = "gnome".toList := by decide
    rw [this]

theorem c2_is_foreign_witness :
    example_deps.g_key_file_load_from_data example_link_text = some example_key_file ∧
    ∃ info, nautilus_link_get_link_info_given_file_contents example_deps example_link_text none
        = some info ∧ info.is_foreign = false := by
  refine ⟨example_link_text_loads, ?_⟩
  obtain ⟨info, h1, h2, _⟩ :=
    c2_is_foreign example_deps example_link_text none example_key_file example_link_text_loads
  refine ⟨info, h1, ?_⟩
  have hi : nautilus_link_get_link_info_given_file_contents example_deps example_link_text none
      = some info := h1
  cases hf : info.is_foreign
  · rfl
  · exfalso
    have e : (nautilus_link_get_link_info_given_file_contents example_deps example_link_text
        none).map (fun i => i.is_foreign) = some false := by decide
    rw [hi] at e
    simp [hf] at e

/-- C3: for a text that parses, `is_launcher` is true exactly when the value of `Type`
is `Application` and the `Desktop Entry` group has an `Exec` key, and false otherwise. -/
theorem c3_is_launcher {KF : Type} (D : LinkDeps KF) (file_contents : Str)
    (file_uri : Option Str) (key_file : KF)
    (h : D.g_key_file_load_from_data file_contents = some key_file) :
    ∃ info, nautilus_link_get_link_info_given_file_contents D file_contents file_uri = some info ∧
      (info.is_launcher = true ↔
        (D.g_key_file_get_string key_file MAIN_GROUP "Type".toList = some "Application".toList ∧
         D.g_key_file_has_key key_file MAIN_GROUP "Exec".toList = true)) ∧
      (info.is_launcher = false ↔
        ¬ (D.g_key_file_get_string key_file MAIN_GROUP "Type".toList = some "Application".toList ∧
           D.g_key_file_has_key key_file MAIN_GROUP "Exec".toList = true)) := by
  refine ⟨_, by simp only [nautilus_link_get_link_info_given_file_contents, h]; rfl, ?_⟩
  cases ht : D.g_key_file_get_string key_file MAIN_GROUP "Type".toList <;>
    cases hk : D.g_key_file_has_key key_file MAIN_GROUP "Exec".toList <;>
    simp [g_strcmp0_eq]

theorem c3_is_launcher_witness :
    example_deps.g_key_file_load_from_data example_link_text = some example_key_file ∧
    ∃ info, nautilus_link_get_link_info_given_file_contents example_deps example_link_text none
        = some info ∧ info.is_launcher = false := by
  refine ⟨example_link_text_loads, ?_⟩
  obtain ⟨info, h1, _, h3⟩ :=
    c3_is_launcher example_deps example_link_text none example_key_file example_link_text_loads
  exact ⟨info, h1, h3.mpr (by decide)⟩

/-! ## The writer and the reader agree -/

theorem g_key_file_parse_data_line (E : GLibEnv) (key_file : GKeyFile) (parse_buffer line
    rest : Str) (h : '\n' ∉ line) :
    g_key_file_parse_data E key_file parse_buffer (line ++ '\n' :: rest) =
      match g_key_file_end_of_line E key_file (parse_buffer ++ line) with
      | none => none
      | some key_file1 => g_key_file_parse_data E key_file1 [] rest := by
  induction line generalizing parse_buffer with
  | nil => simp [g_key_file_parse_data]
  | cons c l ih =>
    have hc : c ≠ '\n' := fun e => h (by simp [e])
    have hl : '\n' ∉ l := fun e => h (List.mem_cons_of_mem _ e)
    have := ih (parse_buffer ++ [c]) hl
    simp only [List.append_assoc, List.singleton_append] at this
    simp only [List.cons_append, g_key_file_parse_data, beq_iff_eq, hc, if_false,
      List.append_eq]
    exact this

theorem g_key_file_parse_value_as_string_of_no_backslash (value : Str) (h : '\\' ∉ value) :
    g_key_file_parse_value_as_string value = value := by
  induction value with
  | nil => rfl
  | cons c rest ih =>
    have hc : c ≠ '\\' := fun e => h (by simp [e])
    have hr : '\\' ∉ rest := fun e => h (List.mem_cons_of_mem _ e)
    unfold g_key_file_parse_value_as_string
    simp [hc, ih hr]

theorem dropWhile_g_ascii_isspace_of_head (s : Str)
    (h : ∀ c, s.head? = some c → g_ascii_isspace c = false) :
    s.dropWhile g_ascii_isspace = s := by
  cases s with
  | nil => rfl
  | cons c rest => simp [List.dropWhile, h c rfl]

theorem getLast_append_ne_cr (line value : Str)
    (hl : line.getLast? ≠ some '\r')
    (hv : ∀ c, value.getLast? = some c → g_ascii_isspace c = false) :
    (line ++ value).getLast? ≠ some '\r' := by
  cases value with
  | nil => simpa using hl
  | cons c rest =>
    intro e
    rw [List.getLast?_append_of_ne_nil _ (List.cons_ne_nil _ _)] at e
    have := hv _ e
    simp [g_ascii_isspace] at this

theorem g_key_file_parse_line_key_value (E : GLibEnv) (kf : GKeyFile) (cur key v : Str)
    (hkey : key ∈ ["Name".toList, "Type".toList, "URL".toList, "Icon".toList])
    (hcur : kf.current_group = some cur)
    (hv : ∀ c, v.head? = some c → g_ascii_isspace c = false) :
    g_key_file_parse_line E kf (key ++ '=' :: v) =
      some (g_key_file_add_key_value_pair kf cur key v) := by
  have hd := dropWhile_g_ascii_isspace_of_head v hv
  simp only [List.mem_cons, List.mem_singleton, List.not_mem_nil, or_false] at hkey
  rcases hkey with rfl | rfl | rfl | rfl <;>
    simp [g_key_file_parse_line, g_key_file_line_is_comment, g_key_file_line_is_group,
      g_key_file_line_is_key_value_pair, strchr, g_key_file_parse_key_value_pair, hcur, chomp,
      g_key_file_is_key_name, g_key_file_is_key_name_locale, key_get_locale, strrchr_bracket,
      g_ascii_isspace, hd, List.dropWhile, List.takeWhile]

theorem g_key_file_end_of_line_key_value (E : GLibEnv) (kf : GKeyFile) (cur key v : Str)
    (hkey : key ∈ ["Name".toList, "Type".toList, "URL".toList, "Icon".toList])
    (hcur : kf.current_group = some cur)
    (hhead : ∀ c, v.head? = some c → g_ascii_isspace c = false)
    (hlast : ∀ c, v.getLast? = some c → g_ascii_isspace c = false) :
    g_key_file_end_of_line E kf (key ++ '=' :: v) =
      some (g_key_file_add_key_value_pair kf cur key v) := by
  have h1 : (key ++ '=' :: v).getLast? ≠ some '\r' := by
    have := getLast_append_ne_cr (key ++ ['=']) v (by simp) hlast
    simpa using this
  have h2 : (key ++ '=' :: v).isEmpty = false := by simp
  unfold g_key_file_end_of_line
  simp only [beq_iff_eq, h1, if_false, h2, Bool.false_eq_true]
  exact g_key_file_parse_line_key_value E kf cur key v hkey hcur hhead

theorem contents_lines (display_name target_uri : Str) (image : Option Str) :
    nautilus_link_local_create_contents display_name image target_uri =
      "[Desktop Entry]".toList ++ '\n' :: ("Encoding=UTF-8".toList ++ '\n' ::
        (("Name".toList ++ '=' :: display_name) ++ '\n' :: (("Type".toList ++ '=' :: "Link".toList)
          ++ '\n' :: (("URL".toList ++ '=' :: target_uri) ++ '\n' ::
            ((match image with
              | some i => "Icon".toList ++ '=' :: i
              | none => []) ++ '\n' :: []))))) := by
  cases image <;> simp [nautilus_link_local_create_contents]

/-- The key file read back from the text of the writer. -/
theorem g_key_file_load_from_data_contents (E : GLibEnv) (display_name target_uri : Str)
    (image : Option Str)
    (htext : ∀ s ∈ display_name :: target_uri :: image.toList,
      '\n' ∉ s ∧ (∀ c, s.head? = some c → g_ascii_isspace c = false) ∧
        (∀ c, s.getLast? = some c → g_ascii_isspace c = false)) :
    ∃ key_file,
      g_key_file_load_from_data E
        (nautilus_link_local_create_contents display_name image target_uri) = some key_file ∧
      key_file.groups =
        [{ name := MAIN_GROUP,
           key_value_pairs :=
             (match image with
              | some i => [("Icon".toList, i)]
              | none => []) ++
             [("URL".toList, target_uri), ("Type".toList, "Link".toList),
              ("Name".toList, display_name), ("Encoding".toList, "UTF-8".toList)] }] := by
  obtain ⟨hn1, hn2, hn3⟩ := htext display_name (by simp)
  obtain ⟨ht1, ht2, ht3⟩ := htext target_uri (by simp)
  have h1 : g_key_file_end_of_line E g_key_file_new ([] ++ "[Desktop Entry]".toList) =
      some { groups := [{ name := MAIN_GROUP, key_value_pairs := [] }],
             start_group := some MAIN_GROUP, current_group := some MAIN_GROUP } := rfl
  have h2 : g_key_file_end_of_line E
      { groups := [{ name := MAIN_GROUP, key_value_pairs := [] }],
        start_group := some MAIN_GROUP, current_group := some MAIN_GROUP }
      ([] ++ "Encoding=UTF-8".toList) =
      some { groups := [{ name := MAIN_GROUP,
                          key_value_pairs := [("Encoding".toList, "UTF-8".toList)] }],
             start_group := some MAIN_GROUP, current_group := some MAIN_GROUP } := rfl
  rw [contents_lines, g_key_file_load_from_data,
    g_key_file_parse_data_line E _ _ _ _ (by decide), h1]
  simp only []
  rw [g_key_file_parse_data_line E _ _ _ _ (by decide), h2]
  simp only []
  rw [g_key_file_parse_data_line E _ _ _ _ (by simp [hn1]), List.nil_append,
    g_key_file_end_of_line_key_value E _ MAIN_GROUP _ _ (by simp) rfl hn2 hn3]
  simp only []
  rw [g_key_file_parse_data_line E _ _ _ _ (by decide), List.nil_append,
    g_key_file_end_of_line_key_value E _ MAIN_GROUP _ _ (by simp) rfl (by decide) (by decide)]
  simp only []
  rw [g_key_file_parse_data_line E _ _ _ _ (by simp [ht1]), List.nil_append,
    g_key_file_end_of_line_key_value E _ MAIN_GROUP _ _ (by simp) rfl ht2 ht3]
  simp only []
  cases image with
  | none =>
    simp only []
    rw [g_key_file_parse_data_line E _ _ _ _ (by simp)]
    simp [g_key_file_end_of_line, g_key_file_parse_data, g_key_file_add_key_value_pair,
      MAIN_GROUP]
  | some i =>
    obtain ⟨hi1, hi2, hi3⟩ := htext i (by simp)
    simp only []
    rw [g_key_file_parse_data_line E _ _ _ _ (by simp [hi1]), List.nil_append,
      g_key_file_end_of_line_key_value E _ MAIN_GROUP _ _ (by simp) rfl hi2 hi3]
    simp [g_key_file_parse_data, g_key_file_add_key_value_pair, MAIN_GROUP]

theorem g_key_file_get_value_of_groups (key_file : GKeyFile) (pairs : List (Str × Str))
    (h : key_file.groups = [{ name := MAIN_GROUP, key_value_pairs := pairs }]) (key : Str) :
    g_key_file_get_value key_file MAIN_GROUP key =
      (pairs.find? (fun p => p.1 == key)).map (fun p => p.2) := by
  simp [g_key_file_get_value, g_key_file_lookup_group, h]

theorem nautilus_link_local_create_replace_contents (env : LinkCreateEnv)
    (directory_uri base_name display_name : Str) (image : Option Str) (target_uri : Str)
    (point : Option (Int × Int)) (screen : Int) (unique_filename : Bool) (file contents : Str)
    (h : (nautilus_link_local_create env directory_uri base_name display_name image
      target_uri point screen unique_filename).replace_contents = some (file, contents)) :
    contents = nautilus_link_local_create_contents display_name image target_uri := by
  unfold nautilus_link_local_create at h
  dsimp only at h
  by_cases h1 : (env.eel_uri_is_trash directory_uri || env.eel_uri_is_search directory_uri) = true
  · rw [if_pos h1] at h
    simp at h
  · rw [if_neg h1] at h
    split at h
    · simp at h
    · split_ifs at h <;> simp at h <;> exact h.2.symm

/-- C4: the writer and the reader agree.  For a display name, a target URI and an
optional icon name (texts) without line break (`\n`, `\r`) and without backslash, that
neither start nor end with white space (`g_ascii_isspace`), the target URI starting
with a URI scheme: the text `nautilus_link_local_create` hands to
`g_file_replace_contents`, read by `nautilus_link_get_link_info_given_file_contents`
over GLib's key-file parser, gives the target URI as `uri`, the display name as `name`,
and `is_launcher` and `is_foreign` false, whatever the languages of the process and
the URI of the desktop file. -/
theorem c4_writer_reader_agree (E : GLibEnv) (g_file_get_parent : Str → Option Str)
    (g_file_resolve_relative_path : Str → Str → Option Str) (icon_folder : Str)
    (env : LinkCreateEnv) (directory_uri base_name display_name : Str) (image : Option Str)
    (target_uri : Str) (point : Option (Int × Int)) (screen : Int) (unique_filename : Bool)
    (file_uri : Option Str) (file contents : Str)
    (htext : ∀ s ∈ display_name :: target_uri :: image.toList,
      '\n' ∉ s ∧ '\r' ∉ s ∧ '\\' ∉ s ∧
      (∀ c, s.head? = some c → g_ascii_isspace c = false) ∧
      (∀ c, s.getLast? = some c → g_ascii_isspace c = false))
    (hscheme : (g_uri_parse_scheme target_uri).isSome = true)
    (hwritten : (nautilus_link_local_create env directory_uri base_name display_name image
      target_uri point screen unique_filename).replace_contents = some (file, contents)) :
    ∃ info,
      nautilus_link_get_link_info_given_file_contents
        (glib_deps E g_file_get_parent g_file_resolve_relative_path icon_folder)
        contents file_uri = some info ∧
      info.uri = some target_uri ∧ info.name = some display_name ∧
      info.is_launcher = false ∧ info.is_foreign = false := by
  have hcontents := nautilus_link_local_create_replace_contents env directory_uri base_name
    display_name image target_uri point screen unique_filename file contents hwritten
  subst hcontents
  obtain ⟨key_file, hload, hgroups⟩ := g_key_file_load_from_data_contents E display_name
    target_uri image (fun s hs => ⟨(htext s hs).1, (htext s hs).2.2.2.1, (htext s hs).2.2.2.2⟩)
  have hvalue := g_key_file_get_value_of_groups key_file _ hgroups
  have hname := g_key_file_parse_value_as_string_of_no_backslash display_name
    (htext display_name (by simp)).2.2.1
  have htarget := g_key_file_parse_value_as_string_of_no_backslash target_uri
    (htext target_uri (by simp)).2.2.1
  have htype : g_key_file_get_string key_file MAIN_GROUP "Type".toList = some "Link".toList := by
    unfold g_key_file_get_string
    rw [hvalue]
    cases image <;> simp <;> rfl
  have hurl : g_key_file_get_string key_file MAIN_GROUP "URL".toList = some target_uri := by
    unfold g_key_file_get_string
    rw [hvalue]
    cases image <;> simp [htarget]
  have hnm : g_key_file_get_string key_file MAIN_GROUP "Name".toList = some display_name := by
    unfold g_key_file_get_string
    rw [hvalue]
    cases image <;> simp [hname]
  have hlocale : ∀ l : Str, g_key_file_get_string key_file MAIN_GROUP
      ("Name".toList ++ "[".toList ++ l ++ "]".toList) = none := by
    intro l
    unfold g_key_file_get_string
    rw [hvalue]
    cases image <;> simp
  have honly : g_key_file_get_string_list key_file MAIN_GROUP "OnlyShowIn".toList = none := by
    unfold g_key_file_get_string_list
    rw [hvalue]
    cases image <;> simp
  have hnot : g_key_file_get_string_list key_file MAIN_GROUP "NotShowIn".toList = none := by
    unfold g_key_file_get_string_list
    rw [hvalue]
    cases image <;> simp
  have hlname : g_key_file_get_locale_string E key_file MAIN_GROUP "Name".toList
      = some display_name := by
    unfold g_key_file_get_locale_string
    have : E.g_get_language_names.findSome? (fun l =>
        g_key_file_get_string key_file MAIN_GROUP
          ("Name".toList ++ "[".toList ++ l ++ "]".toList)) = none := by
      rw [List.findSome?_eq_none_iff]
      intro l _
      exact hlocale l
    rw [this]
    exact hnm
  refine ⟨_, by simp only [nautilus_link_get_link_info_given_file_contents, glib_deps, hload]; rfl,
    ?_, ?_, ?_, ?_⟩
  · simp only [nautilus_link_get_link_uri_from_desktop,
      nautilus_link_get_link_uri_from_desktop_retval, htype, hurl]
    have : strcmp_eq "Link".toList "URL".toList = false := by decide
    simp only [this, Bool.false_eq_true, if_false]
    have : (strcmp_eq "Link".toList NAUTILUS_LINK_GENERIC_TAG ||
            strcmp_eq "Link".toList NAUTILUS_LINK_MOUNT_TAG ||
            strcmp_eq "Link".toList NAUTILUS_LINK_TRASH_TAG ||
            strcmp_eq "Link".toList NAUTILUS_LINK_HOME_TAG) = true := by decide
    simp only [this, if_true]
    cases file_uri with
    | none => rfl
    | some u =>
      obtain ⟨scheme, hs⟩ := Option.isSome_iff_exists.mp hscheme
      simp only [resolve_local_file_name, hs]
  · exact hlname
  · have e : g_strcmp0_eq (some "Link".toList) "Application".toList = false := by decide
    simp only [htype, e, Bool.false_and, Bool.false_eq_true, if_false]
  · simp only [honly, hnot, Option.isSome_none, Bool.false_and, Bool.false_eq_true, if_false]

theorem c4_writer_reader_agree_witness :
    (nautilus_link_local_create example_create_env "file:///home/u".toList "My link".toList
      "My link".toList (some "folder".toList) "file:///tmp".toList none 0
      false).replace_contents =
      some ("file:///home/u/My link.desktop".toList,
        "[Desktop Entry]\nEncoding=UTF-8\nName=My link\nType=Link\nURL=file:///tmp\nIcon=folder\n".toList) ∧
    (g_uri_parse_scheme "file:///tmp".toList).isSome = true ∧
    ∃ info,
      nautilus_link_get_link_info_given_file_contents example_deps
        "[Desktop Entry]\nEncoding=UTF-8\nName=My link\nType=Link\nURL=file:///tmp\nIcon=folder\n".toList
        (some "file:///home/u/My link.desktop".toList) = some info ∧
      info.uri = some "file:///tmp".toList ∧ info.name = some "My link".toList ∧
      info.is_launcher = false ∧ info.is_foreign = false := by
  refine ⟨by decide, by decide, ?_⟩
  exact c4_writer_reader_agree example_glib_env (fun _ => none) (fun _ _ => none)
    "folder".toList example_create_env "file:///home/u".toList "My link".toList
    "My link".toList (some "folder".toList) "file:///tmp".toList none 0 false
    (some "file:///home/u/My link.desktop".toList) "file:///home/u/My link.desktop".toList _
    (by
      intro s hs
      simp only [Option.toList, List.mem_cons, List.mem_singleton, List.not_mem_nil,
        or_false] at hs
      rcases hs with rfl | rfl | rfl <;>
        refine ⟨by decide, by decide, by decide, ?_, ?_⟩ <;>
        intro c hc <;> simp at hc <;> subst hc <;> decide)
    (by decide) (by decide)

/-! ## Bookmarks -/

/-- C5: `nautilus_window_add_bookmark_for_current_location` leaves the bookmark list
unchanged when it already holds a bookmark for the displayed location, otherwise
appends exactly the bookmark of the displayed location at the end; nothing else of the
window changes, and a second call in a row changes nothing. -/
theorem c5_add_bookmark_for_current_location (window : NautilusWindow) :
    ((∃ b ∈ window.details.bookmark_list,
        b.location = window.details.active_pane.active_slot.current_location_bookmark.location) →
      (nautilus_window_add_bookmark_for_current_location window).details.bookmark_list
        = window.details.bookmark_list) ∧
    ((¬ ∃ b ∈ window.details.bookmark_list,
        b.location = window.details.active_pane.active_slot.current_location_bookmark.location) →
      (nautilus_window_add_bookmark_for_current_location window).details.bookmark_list
        = window.details.bookmark_list ++
            [window.details.active_pane.active_slot.current_location_bookmark]) ∧
    (nautilus_window_add_bookmark_for_current_location window).details.active_pane
      = window.details.active_pane ∧
    nautilus_window_add_bookmark_for_current_location
        (nautilus_window_add_bookmark_for_current_location window)
      = nautilus_window_add_bookmark_for_current_location window := by
  obtain ⟨⟨pane, list⟩⟩ := window
  by_cases hc : nautilus_bookmark_list_contains list pane.active_slot.current_location_bookmark
      = true
  · have hex : ∃ b ∈ list, b.location = pane.active_slot.current_location_bookmark.location := by
      simpa [nautilus_bookmark_list_contains] using hc
    simp [nautilus_window_add_bookmark_for_current_location, hc, hex]
  · have hex : ¬ ∃ b ∈ list,
        b.location = pane.active_slot.current_location_bookmark.location := by
      simpa [nautilus_bookmark_list_contains] using hc
    have hc2 : nautilus_bookmark_list_contains
        (nautilus_bookmark_list_append list pane.active_slot.current_location_bookmark)
        pane.active_slot.current_location_bookmark = true := by
      simp [nautilus_bookmark_list_contains, nautilus_bookmark_list_append]
    simp only [Bool.not_eq_true] at hc
    refine ⟨fun h => absurd h hex, fun _ => ?_, ?_, ?_⟩
    · simp [nautilus_window_add_bookmark_for_current_location, hc,
        nautilus_bookmark_list_append]
    · simp [nautilus_window_add_bookmark_for_current_location, hc]
    · simp [nautilus_window_add_bookmark_for_current_location, hc, hc2]

/-! ## The command line -/

/-- C6, as stated, fails: `nautilus --check --no-desktop` gives `--check` together with
another option, yet the call is not rejected: it prints no error, runs the self checks
(two rounds of two) and returns `EXIT_SUCCESS`. -/
theorem c6_check_with_other_option_not_rejected :
    check_with_no_desktop.version = false ∧
    check_with_no_desktop.perform_self_check = true ∧
    check_with_no_desktop.no_desktop = true ∧
    (nautilus_application_command_line example_app_env false
      (Except.ok check_with_no_desktop)).retval = some EXIT_SUCCESS ∧
    self_check_runs (nautilus_application_command_line example_app_env false
      (Except.ok check_with_no_desktop)) = 4 ∧
    AppEvent.command_line_printerr "--check cannot be used with other options.".toList ∉
      (nautilus_application_command_line example_app_env false
        (Except.ok check_with_no_desktop)).events := by
  decide

/-- C6, amended: a command line without `--version` that gives `--check` together
with `--quit` or with any URI is rejected: the only event is the error message
`--check cannot be used with other options.`, the return value is `EXIT_FAILURE`, no
self check runs and no window is opened. -/
theorem c6_check_with_quit_or_uris_rejected (env : ApplicationEnv) (initialized : Bool)
    (o : CommandLineOptions) (hversion : o.version = false)
    (hcheck : o.perform_self_check = true)
    (hother : o.kill_shell = true ∨ ∃ uris, o.remaining = some uris) :
    (nautilus_application_command_line env initialized (Except.ok o)).events =
      [AppEvent.command_line_printerr "--check cannot be used with other options.".toList] ∧
    (nautilus_application_command_line env initialized (Except.ok o)).retval
      = some EXIT_FAILURE ∧
    self_check_runs (nautilus_application_command_line env initialized (Except.ok o)) = 0 ∧
    opened_windows (nautilus_application_command_line env initialized (Except.ok o)) = [] ∧
    (nautilus_application_command_line env initialized (Except.ok o)).initialized
      = initialized := by
  have hguard : (o.perform_self_check && (o.remaining.isSome || o.kill_shell)) = true := by
    rcases hother with hk | ⟨uris, hu⟩
    · simp [hcheck, hk]
    · simp [hcheck, hu]
  have hr : nautilus_application_command_line env initialized (Except.ok o) =
      { retval := some EXIT_FAILURE,
        events := [AppEvent.command_line_printerr
          "--check cannot be used with other options.".toList],
        initialized := initialized } := by
    simp only [nautilus_application_command_line, hversion, hguard, if_true,
      Bool.false_eq_true, if_false]
  rw [hr]
  exact ⟨rfl, rfl, rfl, rfl, rfl⟩

theorem c6_check_with_quit_or_uris_rejected_witness :
    check_with_quit.version = false ∧ check_with_quit.perform_self_check = true ∧
    check_with_quit.kill_shell = true ∧
    (nautilus_application_command_line example_app_env false
      (Except.ok check_with_quit)).retval = some EXIT_FAILURE :=
  ⟨rfl, rfl, rfl,
    (c6_check_with_quit_or_uris_rejected example_app_env false check_with_quit rfl rfl
      (Or.inl rfl)).2.1⟩

theorem printerr_not_mem_initialize_application (env : ApplicationEnv) (no_desktop : Bool)
    (msgid : Str) :
    AppEvent.command_line_printerr msgid ∉ initialize_application env no_desktop := by
  unfold initialize_application
  cases env.nautilus_get_accel_map_file <;> cases no_desktop <;>
    cases env.show_desktop_preference <;> simp

theorem printerr_not_mem_open_windows (uris : Option (List Str)) (geometry : Option Str)
    (msgid : Str) :
    AppEvent.command_line_printerr msgid ∉ open_windows uris geometry := by
  rcases uris with _ | _ | ⟨u, us⟩ <;> simp [open_windows, open_window]

theorem printerr_not_mem_run_self_checks_twice (env : ApplicationEnv) (initialized : Bool)
    (msgid : Str) :
    AppEvent.command_line_printerr msgid ∉ (run_self_checks_twice env initialized).events := by
  unfold run_self_checks_twice
  split_ifs <;> simp

/-- C7: a command line without `--version` that gives `--geometry` together with two
or more URIs returns `EXIT_FAILURE` and opens no window; with `--geometry` and no URI
or exactly one URI the message `--geometry cannot be used with more than one URI.` is
not printed: this rule does not reject the command line. -/
theorem c7_geometry_with_several_uris (env : ApplicationEnv) (initialized : Bool)
    (o : CommandLineOptions) (geometry : Str) (hversion : o.version = false)
    (hgeometry : o.geometry = some geometry) :
    (∀ uri1 uri2 uris, o.remaining = some (uri1 :: uri2 :: uris) →
      (nautilus_application_command_line env initialized (Except.ok o)).retval
        = some EXIT_FAILURE ∧
      opened_windows (nautilus_application_command_line env initialized (Except.ok o)) = []) ∧
    ((o.remaining = none ∨ o.remaining = some [] ∨ ∃ uri, o.remaining = some [uri]) →
      AppEvent.command_line_printerr
          "--geometry cannot be used with more than one URI.".toList ∉
        (nautilus_application_command_line env initialized (Except.ok o)).events) := by
  constructor
  · intro uri1 uri2 uris hrem
    cases hc : o.perform_self_check <;> cases hk : o.kill_shell <;>
      simp [nautilus_application_command_line, hversion, hgeometry, hrem, hc, hk,
        opened_windows]
  · intro hrem
    have hguard : (o.geometry.isSome &&
        (match o.remaining with
         | some (_ :: _ :: _) => true
         | _ => false)) = false := by
      rcases hrem with h | h | ⟨uri, h⟩ <;> simp [h]
    simp only [nautilus_application_command_line, hversion, hguard, Bool.false_eq_true,
      if_false]
    split_ifs <;>
      simp [printerr_not_mem_run_self_checks_twice, printerr_not_mem_initialize_application,
        printerr_not_mem_open_windows]

theorem c7_geometry_with_several_uris_witness :
    geometry_with_two_uris.version = false ∧
    geometry_with_two_uris.geometry = some "800x600".toList ∧
    (nautilus_application_command_line example_app_env false
      (Except.ok geometry_with_two_uris)).retval = some EXIT_FAILURE ∧
    opened_windows (nautilus_application_command_line example_app_env false
      (Except.ok geometry_with_two_uris)) = [] :=
  ⟨rfl, rfl,
    (c7_geometry_with_several_uris example_app_env false geometry_with_two_uris
      "800x600".toList rfl rfl).1 _ _ _ rfl⟩

theorem convert_args_to_uris_of_total (env : ApplicationEnv) (file_of uri_of : Str → Str)
    (args : List Str)
    (hfile : ∀ arg ∈ args, env.g_file_new_for_commandline_arg arg = some (file_of arg))
    (huri : ∀ arg ∈ args, env.g_file_get_uri (file_of arg) = some (uri_of arg)) :
    convert_args_to_uris env args = args.map uri_of := by
  induction args with
  | nil => rfl
  | cons a rest ih =>
    have h1 := hfile a (List.mem_cons_self _ _)
    have h2 := huri a (List.mem_cons_self _ _)
    have ih1 := ih (fun x hx => hfile x (List.mem_cons_of_mem _ hx))
      (fun x hx => huri x (List.mem_cons_of_mem _ hx))
    unfold convert_args_to_uris at ih1 ⊢
    rw [List.filterMap_cons]
    simp only [h1, h2, List.map_cons]
    rw [ih1]

/-- The windows among the events of the first-call initialisation: none. -/
theorem initialize_application_opens_no_window (env : ApplicationEnv) (no_desktop : Bool) :
    (initialize_application env no_desktop).filterMap (fun e =>
      match e with
      | AppEvent.open_window uri _ => some uri
      | _ => none) = [] := by
  unfold initialize_application
  cases env.nautilus_get_accel_map_file <;> cases no_desktop <;>
    cases env.show_desktop_preference <;> rfl

theorem open_windows_of_uris (uris : List Str) (geometry : Option Str) (h : uris ≠ []) :
    (open_windows (some uris) geometry).filterMap (fun e =>
      match e with
      | AppEvent.open_window uri _ => some uri
      | _ => none) = uris.map some := by
  cases uris with
  | nil => exact absurd rfl h
  | cons u us =>
    simp only [open_windows, open_window]
    generalize u :: us = l
    induction l with
    | nil => rfl
    | cons a rest ih =>
      simp only [List.flatMap_cons, List.singleton_append, List.filterMap_cons, List.map_cons]
      rw [ih]

/-- C8: for an accepted command line (one answered with `EXIT_SUCCESS`: the arguments
pass the checks and the required directories are there) with none of `--version`,
`--check` and `--quit`, whose remaining arguments are `NULL` or at least one (as
GOption leaves them) and each give a file and a URI (as GIO does): with
`--no-default-window` the windows opened with `open_window` are exactly one per URI
argument, in argument order, none of them the home window, and none at all without
URIs; without `--no-default-window` and without URIs exactly one window is opened, at
the home location.  The desktop that the first call may start is not a window of
`open_window`. -/
theorem c8_no_default_window (env : ApplicationEnv) (initialized : Bool)
    (o : CommandLineOptions) (file_of uri_of : Str → Str)
    (hversion : o.version = false) (hcheck : o.perform_self_check = false)
    (hquit : o.kill_shell = false)
    (haccepted : (nautilus_application_command_line env initialized (Except.ok o)).retval
      = some EXIT_SUCCESS)
    (hremaining : o.remaining ≠ some [])
    (hfile : ∀ arg ∈ o.remaining.getD [],
      env.g_file_new_for_commandline_arg arg = some (file_of arg))
    (huri : ∀ arg ∈ o.remaining.getD [], env.g_file_get_uri (file_of arg) = some (uri_of arg)) :
    (o.no_default_window = true →
      opened_windows (nautilus_application_command_line env initialized (Except.ok o))
        = (o.remaining.getD []).map (fun arg => some (uri_of arg)) ∧
      none ∉ opened_windows (nautilus_application_command_line env initialized (Except.ok o)) ∧
      (o.remaining = none →
        opened_windows (nautilus_application_command_line env initialized (Except.ok o)) = [])) ∧
    (o.no_default_window = false → o.remaining = none →
      opened_windows (nautilus_application_command_line env initialized (Except.ok o))
        = [none]) := by
  have hgeo : (o.geometry.isSome &&
      (match o.remaining with
       | some (_ :: _ :: _) => true
       | _ => false)) = false := by
    by_contra hg
    simp only [Bool.not_eq_false] at hg
    simp [nautilus_application_command_line, hversion, hcheck, hquit, hg, EXIT_SUCCESS,
      EXIT_FAILURE] at haccepted
  have hdirs : env.check_required_directories = true := by
    by_contra hd
    simp only [Bool.not_eq_true] at hd
    simp [nautilus_application_command_line, hversion, hcheck, hquit, hgeo, hd, EXIT_SUCCESS,
      EXIT_FAILURE] at haccepted
  have hwin : opened_windows (nautilus_application_command_line env initialized (Except.ok o))
      = (if (o.remaining.map (convert_args_to_uris env)).isSome || !o.no_default_window then
          open_windows (o.remaining.map (convert_args_to_uris env)) o.geometry else []).filterMap
          (fun e =>
            match e with
            | AppEvent.open_window uri _ => some uri
            | _ => none) := by
    simp only [nautilus_application_command_line, hversion, hcheck, hquit, hgeo, hdirs,
      opened_windows, Bool.false_and, Bool.false_eq_true, if_false, Bool.not_true,
      Bool.and_false, Bool.not_false, Bool.true_and, List.filterMap_append]
    cases initialized
    · simp only [Bool.not_false, if_true, initialize_application_opens_no_window,
        List.nil_append]
    · simp only [Bool.not_true, Bool.false_eq_true, if_false, List.filterMap_nil,
        List.nil_append]
  rw [hwin]
  cases hrem : o.remaining with
  | none =>
    refine ⟨fun hn => ?_, fun hn _ => ?_⟩
    · simp [hn]
    · simp [hn, open_windows, open_window]
  | some args =>
    have hne : args ≠ [] := fun e => hremaining (by rw [hrem, e])
    rw [hrem] at hfile huri
    have hconv := convert_args_to_uris_of_total env file_of uri_of args hfile huri
    have hne2 : args.map uri_of ≠ [] := by simpa using hne
    refine ⟨fun _ => ?_, fun _ hnone => by simp at hnone⟩
    simp only [Option.map_some', Option.isSome_some, Bool.true_or, if_true, hconv,
      open_windows_of_uris _ _ hne2, Option.getD_some, List.map_map]
    refine ⟨rfl, ?_, fun hnone => by simp at hnone⟩
    simp

theorem c8_no_default_window_witness :
    no_default_window_with_two_uris.version = false ∧
    no_default_window_with_two_uris.perform_self_check = false ∧
    no_default_window_with_two_uris.kill_shell = false ∧
    (nautilus_application_command_line example_app_env false
      (Except.ok no_default_window_with_two_uris)).retval = some EXIT_SUCCESS ∧
    no_default_window_with_two_uris.remaining ≠ some [] ∧
    opened_windows (nautilus_application_command_line example_app_env false
        (Except.ok no_default_window_with_two_uris))
      = [some "file:///a".toList, some "file:///b".toList] :=
  ⟨rfl, rfl, rfl, by decide, by decide,
    ((c8_no_default_window example_app_env false no_default_window_with_two_uris id id
      rfl rfl rfl (by decide) (by decide) (fun _ _ => rfl) (fun _ _ => rfl)).1 rfl).1⟩

/-! ## The D-Bus handler -/

theorem trigger_copy_uris_operation_of_parameters (parameters : GVariant) :
    trigger_copy_uris_operation (g_variant_get_array_and_string parameters).1
        (g_variant_get_array_and_string parameters).2 =
      match parameters with
      | .array_and_string (uri :: uris) destination =>
        [DBusEvent.nautilus_file_operations_copy (uri :: uris).reverse destination]
      | _ => [] := by
  cases parameters with
  | array_and_string strv s => cases strv <;> rfl
  | four_strings s1 s2 s3 s4 => rfl
  | other => rfl

theorem trigger_copy_file_operation_of_parameters (parameters : GVariant) :
    trigger_copy_file_operation (g_variant_get_four_strings parameters).1
        (g_variant_get_four_strings parameters).2.1
        (g_variant_get_four_strings parameters).2.2.1
        (g_variant_get_four_strings parameters).2.2.2 =
      match parameters with
      | .four_strings source_uri source_display_name dest_dir_uri dest_name =>
        if source_uri = [] ∨ dest_dir_uri = [] then []
        else
          [DBusEvent.nautilus_file_operations_copy_file source_uri dest_dir_uri
            (if source_display_name = [] then none else some source_display_name)
            (if dest_name = [] then none else some dest_name)]
      | _ => [] := by
  cases parameters with
  | array_and_string strv s => rfl
  | four_strings s1 s2 s3 s4 =>
    cases s1 <;> cases s2 <;> cases s3 <;> cases s4 <;> rfl
  | other => rfl

theorem trigger_show_properties_operation_of_parameters (parameters : GVariant) :
    trigger_show_properties_operation (g_variant_get_array_and_string parameters).1
        (g_variant_get_array_and_string parameters).2 =
      match parameters with
      | .array_and_string (uri :: uris) startup_id =>
        DBusEvent.nautilus_application_create_window startup_id ::
          (uri :: uris).map (fun uri => DBusEvent.nautilus_properties_window_present [uri])
      | _ => [] := by
  cases parameters with
  | array_and_string strv s => cases strv <;> rfl
  | four_strings s1 s2 s3 s4 => rfl
  | other => rfl

/-- C9, as stated, fails: a `CopyFile` call with an empty source URI, and a `CopyURIs`
call with an empty list of URIs, are answered with the empty return value without any
operation being triggered. -/
theorem c9_discarded_calls_trigger_no_operation :
    handle_method_call (some "CopyFile".toList)
        (.four_strings [] "a".toList "file:///tmp".toList "b".toList) =
      [DBusEvent.g_dbus_method_invocation_return_value none] ∧
    handle_method_call (some "CopyURIs".toList) (.array_and_string [] "file:///tmp".toList) =
      [DBusEvent.g_dbus_method_invocation_return_value none] := by
  decide

/-- C9 (amended): whatever the method name, the events of `handle_method_call` are some
operations followed by exactly one reply, the empty return value.  For `EmptyTrash` the
operation is the emptying of the trash.  For `CopyURIs`, `CopyFile` and `ShowProperties`
it is the matching operation when the arguments pass the guard of the trigger function
(a list of at least one URI; a source URI and a destination directory URI that are not
empty), started with the values of the call, and there is no operation when the
arguments are discarded.  For `ShowURIs`, `SelectURIs` and every other method name
there is no operation. -/
theorem c9_handle_method_call_replies_once (method_name : Option Str) (parameters : GVariant) :
    ∃ operations,
      handle_method_call method_name parameters =
        operations ++ [DBusEvent.g_dbus_method_invocation_return_value none] ∧
      (∀ value, DBusEvent.g_dbus_method_invocation_return_value value ∉ operations) ∧
      (handle_method_call method_name parameters).count
        (DBusEvent.g_dbus_method_invocation_return_value none) = 1 ∧
      (method_name = some "CopyURIs".toList →
        operations =
          match parameters with
          | .array_and_string (uri :: uris) destination =>
            [DBusEvent.nautilus_file_operations_copy (uri :: uris).reverse destination]
          | _ => []) ∧
      (method_name = some "EmptyTrash".toList →
        operations = [DBusEvent.nautilus_file_operations_empty_trash]) ∧
      (method_name = some "CopyFile".toList →
        operations =
          match parameters with
          | .four_strings source_uri source_display_name dest_dir_uri dest_name =>
            if source_uri = [] ∨ dest_dir_uri = [] then []
            else
              [DBusEvent.nautilus_file_operations_copy_file source_uri dest_dir_uri
                (if source_display_name = [] then none else some source_display_name)
                (if dest_name = [] then none else some dest_name)]
          | _ => []) ∧
      (method_name = some "ShowProperties".toList →
        operations =
          match parameters with
          | .array_and_string (uri :: uris) startup_id =>
            DBusEvent.nautilus_application_create_window startup_id ::
              (uri :: uris).map
                (fun uri => DBusEvent.nautilus_properties_window_present [uri])
          | _ => []) ∧
      (method_name = some "ShowURIs".toList → operations = []) ∧
      (method_name = some "SelectURIs".toList → operations = []) ∧
      (method_name ∉ [some "CopyURIs".toList, some "EmptyTrash".toList,
          some "CopyFile".toList, some "ShowProperties".toList, some "ShowURIs".toList,
          some "SelectURIs".toList] → operations = []) := by
  have hcopy_uris : ∀ a b value, DBusEvent.g_dbus_method_invocation_return_value value ∉
      trigger_copy_uris_operation a b := by
    intro a b value
    unfold trigger_copy_uris_operation
    split <;> simp
  have hcopy_file : ∀ a b c d value, DBusEvent.g_dbus_method_invocation_return_value value ∉
      trigger_copy_file_operation a b c d := by
    intro a b c d value
    unfold trigger_copy_file_operation
    split
    · split_ifs <;> simp
    · simp
  have hprops : ∀ a b value, DBusEvent.g_dbus_method_invocation_return_value value ∉
      trigger_show_properties_operation a b := by
    intro a b value
    unfold trigger_show_properties_operation
    split <;> simp
  have hcount : ∀ operations : List DBusEvent,
      (∀ value, DBusEvent.g_dbus_method_invocation_return_value value ∉ operations) →
      (operations ++ [DBusEvent.g_dbus_method_invocation_return_value none]).count
        (DBusEvent.g_dbus_method_invocation_return_value none) = 1 := by
    intro operations h
    rw [List.count_append, List.count_eq_zero_of_not_mem (h none)]
    simp
  by_cases h1 : method_name = some "CopyURIs".toList
  · subst h1
    refine ⟨_, rfl, hcopy_uris _ _, hcount _ (hcopy_uris _ _),
      fun _ => trigger_copy_uris_operation_of_parameters parameters, ?_, ?_, ?_, ?_, ?_, ?_⟩ <;>
      intro h <;> exact absurd h (by decide)
  by_cases h2 : method_name = some "EmptyTrash".toList
  · subst h2
    refine ⟨trigger_empty_trash_operation, rfl, by simp [trigger_empty_trash_operation],
      hcount _ (by simp [trigger_empty_trash_operation]), ?_, fun _ => rfl, ?_, ?_, ?_, ?_, ?_⟩ <;>
      intro h <;> exact absurd h (by decide)
  by_cases h3 : method_name = some "CopyFile".toList
  · subst h3
    refine ⟨_, rfl, hcopy_file _ _ _ _, hcount _ (hcopy_file _ _ _ _), ?_, ?_,
      fun _ => trigger_copy_file_operation_of_parameters parameters, ?_, ?_, ?_, ?_⟩ <;>
      intro h <;> exact absurd h (by decide)
  by_cases h4 : method_name = some "ShowURIs".toList
  · subst h4
    refine ⟨[], rfl, by simp, hcount [] (by simp), ?_, ?_, ?_, ?_, fun _ => rfl, fun _ => rfl,
      fun _ => rfl⟩ <;>
      intro h <;> exact absurd h (by decide)
  by_cases h5 : method_name = some "SelectURIs".toList
  · subst h5
    refine ⟨[], rfl, by simp, hcount [] (by simp), ?_, ?_, ?_, ?_, fun _ => rfl, fun _ => rfl,
      fun _ => rfl⟩ <;>
      intro h <;> exact absurd h (by decide)
  by_cases h6 : method_name = some "ShowProperties".toList
  · subst h6
    refine ⟨_, rfl, hprops _ _, hcount _ (hprops _ _), ?_, ?_, ?_,
      fun _ => trigger_show_properties_operation_of_parameters parameters, ?_, ?_, ?_⟩ <;>
      intro h <;> exact absurd h (by decide)
  · have hother : handle_method_call method_name parameters =
        [DBusEvent.g_dbus_method_invocation_return_value none] := by
      cases method_name with
      | none => rfl
      | some m =>
        have e1 : m ≠ "CopyURIs".toList := fun e => h1 (by rw [e])
        have e2 : m ≠ "EmptyTrash".toList := fun e => h2 (by rw [e])
        have e3 : m ≠ "CopyFile".toList := fun e => h3 (by rw [e])
        have e4 : m ≠ "ShowURIs".toList := fun e => h4 (by rw [e])
        have e5 : m ≠ "SelectURIs".toList := fun e => h5 (by rw [e])
        have e6 : m ≠ "ShowProperties".toList := fun e => h6 (by rw [e])
        unfold handle_method_call g_strcmp0_eq
        simp only [beq_iff_eq, e1, e2, e3, e4, e5, e6, if_false]
    refine ⟨[], by rw [hother]; rfl, by simp, by rw [hother]; decide,
      fun h => absurd h h1, fun h => absurd h h2, fun h => absurd h h3, fun h => absurd h h6,
      fun _ => rfl, fun _ => rfl, fun _ => rfl⟩

theorem c9_handle_method_call_replies_once_witness :
    handle_method_call (some "CopyURIs".toList)
        (.array_and_string ["file:///a".toList, "file:///b".toList] "file:///tmp".toList) =
      [DBusEvent.nautilus_file_operations_copy ["file:///b".toList, "file:///a".toList]
          "file:///tmp".toList,
        DBusEvent.g_dbus_method_invocation_return_value none] := by
  obtain ⟨operations, hevents, _, _, hcopy, _⟩ :=
    c9_handle_method_call_replies_once (some "CopyURIs".toList)
      (.array_and_string ["file:///a".toList, "file:///b".toList] "file:///tmp".toList)
  rw [hevents, hcopy rfl]
  rfl

/-- C10: `trigger_copy_file_operation` starts a copy exactly when the source URI and
the destination directory URI are both present and non-empty, and does nothing
otherwise; the copy gets the source display name and the destination name unchanged
when they are non-empty and as `NULL` when they are `NULL` or empty. -/
theorem c10_trigger_copy_file_operation
    (source_uri source_display_name dest_dir_uri dest_name : Option Str) :
    (∀ source dest_dir, source_uri = some source → source ≠ [] →
        dest_dir_uri = some dest_dir → dest_dir ≠ [] →
      trigger_copy_file_operation source_uri source_display_name dest_dir_uri dest_name =
        [DBusEvent.nautilus_file_operations_copy_file source dest_dir
          (match source_display_name with
           | some (c :: name) => some (c :: name)
           | _ => none)
          (match dest_name with
           | some (c :: name) => some (c :: name)
           | _ => none)]) ∧
    ((source_uri = none ∨ source_uri = some [] ∨ dest_dir_uri = none ∨ dest_dir_uri = some []) →
      trigger_copy_file_operation source_uri source_display_name dest_dir_uri dest_name = []) ∧
    ((∃ source dest_dir source_name target_name,
        trigger_copy_file_operation source_uri source_display_name dest_dir_uri dest_name =
          [DBusEvent.nautilus_file_operations_copy_file source dest_dir source_name
            target_name]) ↔
      (∃ source dest_dir, source_uri = some source ∧ source ≠ [] ∧
        dest_dir_uri = some dest_dir ∧ dest_dir ≠ [])) := by
  have hstart : ∀ source dest_dir, source_uri = some source → source ≠ [] →
      dest_dir_uri = some dest_dir → dest_dir ≠ [] →
      trigger_copy_file_operation source_uri source_display_name dest_dir_uri dest_name =
        [DBusEvent.nautilus_file_operations_copy_file source dest_dir
          (match source_display_name with
           | some (c :: name) => some (c :: name)
           | _ => none)
          (match dest_name with
           | some (c :: name) => some (c :: name)
           | _ => none)] := by
    intro source dest_dir hs hsne hd hdne
    subst hs hd
    cases source with
    | nil => exact absurd rfl hsne
    | cons c cs =>
      cases dest_dir with
      | nil => exact absurd rfl hdne
      | cons d ds =>
        rcases source_display_name with _ | _ | ⟨x, xs⟩ <;>
          rcases dest_name with _ | _ | ⟨y, ys⟩ <;> rfl
  have hdiscard : (source_uri = none ∨ source_uri = some [] ∨ dest_dir_uri = none ∨
      dest_dir_uri = some []) →
      trigger_copy_file_operation source_uri source_display_name dest_dir_uri dest_name = [] := by
    intro h
    rcases source_uri with _ | _ | ⟨c, cs⟩ <;> rcases dest_dir_uri with _ | _ | ⟨d, ds⟩ <;>
      first
      | rfl
      | (exfalso; simp at h)
  refine ⟨hstart, hdiscard, ?_⟩
  by_cases hcond : ∃ source dest_dir, source_uri = some source ∧ source ≠ [] ∧
      dest_dir_uri = some dest_dir ∧ dest_dir ≠ []
  · obtain ⟨source, dest_dir, hs, hsne, hd, hdne⟩ := hcond
    exact ⟨fun _ => ⟨source, dest_dir, hs, hsne, hd, hdne⟩,
      fun _ => ⟨_, _, _, _, hstart source dest_dir hs hsne hd hdne⟩⟩
  · have hnone : source_uri = none ∨ source_uri = some [] ∨ dest_dir_uri = none ∨
        dest_dir_uri = some [] := by
      rcases source_uri with _ | _ | ⟨c, cs⟩
      · exact Or.inl rfl
      · exact Or.inr (Or.inl rfl)
      · rcases dest_dir_uri with _ | _ | ⟨d, ds⟩
        · exact Or.inr (Or.inr (Or.inl rfl))
        · exact Or.inr (Or.inr (Or.inr rfl))
        · exact absurd ⟨c :: cs, d :: ds, rfl, List.cons_ne_nil _ _, rfl,
            List.cons_ne_nil _ _⟩ hcond
    constructor
    · rintro ⟨source, dest_dir, source_name, target_name, h⟩
      rw [hdiscard hnone] at h
      exact absurd h (by simp)
    · intro h
      exact absurd h hcond

/-! ## The Tracker search engine -/

theorem append_mime_terms_eq (escape : Str → Str) (sparql : Str) (first : Bool)
    (mimetypes : List Str) :
    append_mime_terms escape sparql first mimetypes =
      sparql ++ (if first || mimetypes.isEmpty then [] else " || ".toList) ++
        " || ".toList.intercalate
          (mimetypes.map (fun m => "?mime = ".toList ++ ['"'] ++ escape m ++ ['"'])) := by
  induction mimetypes generalizing sparql first with
  | nil => simp [append_mime_terms, List.intercalate]
  | cons m rest ih =>
    rw [append_mime_terms, ih]
    cases first <;> cases rest <;>
      simp [sparql_append_string_literal, List.intercalate, List.intersperse]

/-- C11: for every search text `t` and every list of mime types, the text
`nautilus_search_engine_tracker_start` sends (when a query is set and none is pending) is
`SELECT nie:url(?urn) WHERE {  ?urn a nfo:FileDataObject ;`, then `nie:mimeType ?mime ;`
iff there is a mime type, then `    tracker:available true .  FILTER
(fn:contains(nfo:fileName(?urn),`, the escaped `t` between double quotes, `)`, then iff
there is a mime type ` && (`, the terms `?mime = ` plus the escaped mime type between
double quotes joined by ` || ` in list order, and `)`, then `)`, and at last
`} ORDER BY DESC(nie:url(?urn)) DESC(nfo:fileName(?urn))`. -/
theorem c11_tracker_start_sparql (escape : Str → Str)
    (details : NautilusSearchEngineTrackerDetails) (t : Str) (location : Option Str)
    (mimes : List Str)
    (hquery : details.query = some { text := t, location_uri := location, mime_types := mimes })
    (hpending : details.query_pending = false) :
    (nautilus_search_engine_tracker_start escape details).2 = some (
      "SELECT nie:url(?urn) WHERE \x7b  ?urn a nfo:FileDataObject ;".toList ++
      (if mimes.length > 0 then "nie:mimeType ?mime ;".toList else []) ++
      "    tracker:available true .  FILTER (fn:contains(nfo:fileName(?urn),".toList ++
      ['"'] ++ escape t ++ ['"'] ++
      ")".toList ++
      (if mimes.length > 0 then
        " && (".toList ++
        " || ".toList.intercalate
          (mimes.map (fun m => "?mime = ".toList ++ ['"'] ++ escape m ++ ['"'])) ++
        ")".toList
       else []) ++
      ")".toList ++
      "\x7d ORDER BY DESC(nie:url(?urn)) DESC(nfo:fileName(?urn))".toList) := by
  unfold nautilus_search_engine_tracker_start
  rw [hpending, hquery]
  simp only [Bool.false_eq_true, if_false, tracker_start_sparql, append_mime_terms_eq,
    sparql_append_string_literal]
  cases mimes <;> simp

theorem c11_tracker_start_sparql_witness :
    example_tracker_details.query =
      some { text := "report".toList,
             location_uri := none,
             mime_types := ["text/plain".toList, "image/png".toList] } ∧
    example_tracker_details.query_pending = false ∧
    (nautilus_search_engine_tracker_start id example_tracker_details).2 =
      some "SELECT nie:url(?urn) WHERE \x7b  ?urn a nfo:FileDataObject ;nie:mimeType ?mime ;    tracker:available true .  FILTER (fn:contains(nfo:fileName(?urn),\"report\") && (?mime = \"text/plain\" || ?mime = \"image/png\"))\x7d ORDER BY DESC(nie:url(?urn)) DESC(nfo:fileName(?urn))".toList :=
  ⟨rfl, rfl,
    (c11_tracker_start_sparql id example_tracker_details "report".toList none
      ["text/plain".toList, "image/png".toList] rfl rfl).trans rfl⟩

theorem cursor_callback_rows (rows : List (Option Str)) (rest : List CursorStep) :
    cursor_callback
        (rows.map (fun c => ({ success := true, error := none, column0 := c } : CursorStep))
          ++ rest) =
      rows.map (fun c => SearchEvent.hits_added [c]) ++ cursor_callback rest := by
  induction rows with
  | nil => rfl
  | cons c rows ih => simp [cursor_callback, ih]

/-- C12: for a query whose cursor yields the rows `rows` and then ends without error,
the engine emits `hits-added` once per row, with the one-element list holding column 0
of that row, in row order, and then `finished` once; if instead a cursor step reports
an error, the hits of the rows before it are followed by `error` once, with no
`finished` and no further hit; and if the query itself reports an error, `error` is
all that is emitted. -/
theorem c12_cursor_events (details : NautilusSearchEngineTrackerDetails)
    (rows : List (Option Str)) (rest : List CursorStep) :
    (∀ column0,
      (query_callback details
        { cursor := some
            (rows.map (fun c => ({ success := true, error := none, column0 := c } : CursorStep))
              ++ { success := false, error := none, column0 := column0 } :: rest),
          error := none }).2 =
        rows.map (fun c => SearchEvent.hits_added [c]) ++ [SearchEvent.finished]) ∧
    (∀ success message column0,
      (query_callback details
        { cursor := some
            (rows.map (fun c => ({ success := true, error := none, column0 := c } : CursorStep))
              ++ { success := success, error := some message, column0 := column0 } :: rest),
          error := none }).2 =
        rows.map (fun c => SearchEvent.hits_added [c]) ++ [SearchEvent.error message] ∧
      SearchEvent.finished ∉
        (query_callback details
          { cursor := some
              (rows.map (fun c => ({ success := true, error := none, column0 := c } : CursorStep))
                ++ { success := success, error := some message, column0 := column0 } :: rest),
            error := none }).2) ∧
    (∀ cursor message,
      (query_callback details { cursor := cursor, error := some message }).2 =
        [SearchEvent.error message]) := by
  refine ⟨fun column0 => ?_, fun success message column0 => ?_, fun cursor message => rfl⟩
  · simp [query_callback, cursor_callback_rows, cursor_callback]
  · have h : (query_callback details
        { cursor := some
            (rows.map (fun c => ({ success := true, error := none, column0 := c } : CursorStep))
              ++ { success := success, error := some message, column0 := column0 } :: rest),
          error := none }).2 =
        rows.map (fun c => SearchEvent.hits_added [c]) ++ [SearchEvent.error message] := by
      simp [query_callback, cursor_callback_rows, cursor_callback]
    rw [h]
    exact ⟨rfl, by simp⟩

/-- C16, on the code: a library that can be opened but lacks one of the nine symbols.
The first `init` reports failure, but leaves `inited` set; a second `init` reports
success, and `nautilus_search_engine_tracker_new` then does not return `NULL`: it goes
on to call `tracker_sparql_connection_get`. -/
theorem c16_second_init_succeeds_without_symbol :
    library_without_escape_string.g_module_open = true ∧
    funcs.length = 9 ∧
    "tracker_sparql_escape_string".toList ∈ funcs ∧
    library_without_escape_string.g_module_symbol "tracker_sparql_escape_string".toList = false ∧
    init library_without_escape_string { inited := false, loaded := false } =
      (false, { inited := true, loaded := false }) ∧
    init library_without_escape_string { inited := true, loaded := false } =
      (true, { inited := true, loaded := false }) ∧
    (nautilus_search_engine_tracker_new library_without_escape_string
      { connection := true, error := none } { inited := true, loaded := false }).1 =
      NewEngine.call_without_library := by
  decide

/-! ## List view selections -/

theorem parent_is_selected_loop_iff (selection : GtkTreeSelection) (depth : Nat)
    (child : GtkTreePath) (h : child.length ≤ depth) :
    parent_is_selected_loop selection depth child = true ↔
      ∃ k, 0 < k ∧ k < child.length ∧ child.take k ∈ selection := by
  induction depth generalizing child with
  | zero =>
    have : child.length = 0 := by omega
    simp [parent_is_selected_loop, this]
  | succ n ih =>
    unfold parent_is_selected_loop gtk_tree_model_iter_parent
    by_cases hlen : child.length ≥ 2
    · simp only [hlen, if_true, gtk_tree_selection_iter_is_selected]
      have hdl : child.dropLast = child.take (child.length - 1) := List.dropLast_eq_take child
      have hpl : child.dropLast.length = child.length - 1 := by simp
      by_cases hsel : child.dropLast ∈ selection
      · simp only [hsel, decide_True, if_true, true_iff]
        exact ⟨child.length - 1, by omega, by omega, by rw [← hdl]; exact hsel⟩
      · simp only [hsel, decide_False, Bool.false_eq_true, if_false]
        rw [ih child.dropLast (by omega)]
        constructor
        · rintro ⟨k, hk0, hk1, hk2⟩
          refine ⟨k, hk0, by omega, ?_⟩
          rw [hdl, List.take_take] at hk2
          have : min k (child.length - 1) = k := by omega
          rwa [this] at hk2
        · rintro ⟨k, hk0, hk1, hk2⟩
          by_cases hk : k = child.length - 1
          · exfalso
            apply hsel
            rw [hdl, ← hk]
            exact hk2
          · refine ⟨k, hk0, by omega, ?_⟩
            rw [hdl, List.take_take]
            have : min k (child.length - 1) = k := by omega
            rwa [this]
    · simp only [hlen, if_false, Bool.false_eq_true, false_iff]
      rintro ⟨k, hk0, hk1, _⟩
      omega

theorem transfer_foldl (file_column : GtkTreePath → Option Str)
    (selection : GtkTreeSelection) (rows : List GtkTreePath) (list : List Str) :
    rows.foldl
        (nautilus_list_view_get_selection_for_file_transfer_foreach_func file_column selection)
        list =
      ((rows.filter (fun p => !parent_is_selected_loop selection p.length p)).filterMap
        file_column).reverse ++ list := by
  induction rows generalizing list with
  | nil => rfl
  | cons p rows ih =>
    rw [List.foldl_cons, ih]
    unfold nautilus_list_view_get_selection_for_file_transfer_foreach_func
    cases hf : file_column p with
    | none =>
      by_cases hl : parent_is_selected_loop selection p.length p = true <;>
        simp [List.filter_cons, hl, hf]
    | some file =>
      by_cases hl : parent_is_selected_loop selection p.length p = true <;>
        simp [List.filter_cons, hl, hf]

/-- C13: `nautilus_list_view_get_selection_for_file_transfer` returns, in selection
order and once for each row, the files of the selected rows that have a file and for
which the climb to the top level meets no selected row; the climb meets a selected row
exactly when a proper ancestor of the row is selected; so no row that contributes is
a descendant of another one that does. -/
theorem c13_selection_for_file_transfer (file_column : GtkTreePath → Option Str)
    (selection : GtkTreeSelection) :
    nautilus_list_view_get_selection_for_file_transfer file_column selection =
      (selection.filter (fun p =>
        !parent_is_selected_loop selection p.length p)).filterMap file_column ∧
    (∀ p, parent_is_selected_loop selection p.length p = true ↔
      ∃ k, 0 < k ∧ k < p.length ∧ p.take k ∈ selection) ∧
    (∀ p ∈ selection.filter (fun p => !parent_is_selected_loop selection p.length p),
      ∀ q ∈ selection.filter (fun p => !parent_is_selected_loop selection p.length p),
      ∀ k, 0 < k → k < p.length → p.take k ≠ q) := by
  refine ⟨?_, fun p => parent_is_selected_loop_iff selection p.length p (le_refl _), ?_⟩
  · unfold nautilus_list_view_get_selection_for_file_transfer
    rw [transfer_foldl]
    simp
  · intro p hp q hq k hk0 hk1 heq
    rw [List.mem_filter] at hp hq
    have hsel : parent_is_selected_loop selection p.length p = true :=
      (parent_is_selected_loop_iff selection p.length p (le_refl _)).mpr
        ⟨k, hk0, hk1, by rw [heq]; exact hq.1⟩
    simp [hsel] at hp

theorem gtk_tree_path_compare_eq_zero_iff (a b : GtkTreePath) :
    gtk_tree_path_compare a b = 0 ↔ a = b := by
  induction a generalizing b with
  | nil => cases b <;> simp [gtk_tree_path_compare]
  | cons x xs ih =>
    cases b with
    | nil => simp [gtk_tree_path_compare]
    | cons y ys =>
      unfold gtk_tree_path_compare
      by_cases hxy : x = y
      · simp [hxy, ih]
      · by_cases hlt : x < y <;> simp [hxy, hlt]

/-- The state of the traversal after the rows `rows` have been visited. -/
theorem has_common_parent_foldl (rows : List GtkTreePath) :
    ((rows.foldl tree_selection_has_common_parent_foreach_func
        { path := none, is_common := true, is_root := false }).is_root = true ↔
      ∃ p ∈ rows, p.dropLast = []) ∧
    ((rows.foldl tree_selection_has_common_parent_foreach_func
        { path := none, is_common := true, is_root := false }).is_root = false →
      ((rows.foldl tree_selection_has_common_parent_foreach_func
          { path := none, is_common := true, is_root := false }).is_common = true ↔
        ∀ p ∈ rows, ∀ q ∈ rows, p.dropLast = q.dropLast) ∧
      ((rows.foldl tree_selection_has_common_parent_foreach_func
          { path := none, is_common := true, is_root := false }).is_common = true →
        (rows.foldl tree_selection_has_common_parent_foreach_func
          { path := none, is_common := true, is_root := false }).path =
          rows.head?.map List.dropLast)) := by
  induction rows using List.reverseRecOn with
  | nil => simp
  | append_singleton rows x ih =>
    rw [List.foldl_append, List.foldl_cons, List.foldl_nil]
    generalize rows.foldl tree_selection_has_common_parent_foreach_func
      { path := none, is_common := true, is_root := false } = data at ih ⊢
    obtain ⟨hroot, hrest⟩ := ih
    obtain ⟨path, is_common, is_root⟩ := data
    simp only at hroot hrest
    by_cases hx : x.dropLast = []
    · -- the row is at the top level
      have hstep : tree_selection_has_common_parent_foreach_func
          { path := path, is_common := is_common, is_root := is_root } x =
          { path := path, is_common := is_common, is_root := true } := by
        simp [tree_selection_has_common_parent_foreach_func, gtk_tree_path_up,
          gtk_tree_path_get_depth, hx]
      rw [hstep]
      refine ⟨⟨fun _ => ⟨x, by simp, hx⟩, fun _ => rfl⟩, fun h => by simp at h⟩
    · have hpos : ¬ x.length ≤ 1 := by
        have := List.length_pos.mpr hx
        simp only [List.length_dropLast] at this
        omega
      cases is_root with
      | true =>
        have hstep : tree_selection_has_common_parent_foreach_func
            { path := path, is_common := is_common, is_root := true } x =
            { path := path, is_common := is_common, is_root := true } := by
          simp [tree_selection_has_common_parent_foreach_func, gtk_tree_path_up,
            gtk_tree_path_get_depth, hpos]
        rw [hstep]
        refine ⟨⟨fun _ => ?_, fun _ => rfl⟩, fun h => by simp at h⟩
        obtain ⟨p, hp, hp2⟩ := hroot.mp rfl
        exact ⟨p, by simp [hp], hp2⟩
      | false =>
        have hnoroot : ¬ ∃ p ∈ rows, p.dropLast = [] := fun h => by
          have := hroot.mpr h
          simp at this
        obtain ⟨hcommon, hpath⟩ := hrest rfl
        have hroot2 : ¬ ∃ p ∈ rows ++ [x], p.dropLast = [] := by
          rintro ⟨p, hp, hp2⟩
          rw [List.mem_append, List.mem_singleton] at hp
          rcases hp with hp | rfl
          · exact hnoroot ⟨p, hp, hp2⟩
          · exact hx hp2
        cases is_common with
        | false =>
          have hstep : tree_selection_has_common_parent_foreach_func
              { path := path, is_common := false, is_root := false } x =
              { path := path, is_common := false, is_root := false } := by
            simp [tree_selection_has_common_parent_foreach_func, gtk_tree_path_up,
              gtk_tree_path_get_depth, hpos]
          rw [hstep]
          refine ⟨⟨fun h => by simp at h, fun h => absurd h hroot2⟩, fun _ => ⟨?_, ?_⟩⟩
          · constructor
            · intro h
              simp at h
            · intro h
              exfalso
              have : ∀ p ∈ rows, ∀ q ∈ rows, p.dropLast = q.dropLast :=
                fun p hp q hq => h p (by simp [hp]) q (by simp [hq])
              have := hcommon.mpr this
              simp at this
          · intro h
            simp at h
        | true =>
          have hall := hcommon.mp rfl
          have hp := hpath rfl
          simp only at hp
          cases rows with
          | nil =>
            simp only [List.head?_nil, Option.map_none'] at hp
            subst hp
            have hstep : tree_selection_has_common_parent_foreach_func
                { path := none, is_common := true, is_root := false } x =
                { path := some x.dropLast, is_common := true, is_root := false } := by
              simp [tree_selection_has_common_parent_foreach_func, gtk_tree_path_up,
                gtk_tree_path_get_depth, hpos]
            rw [hstep]
            refine ⟨⟨fun h => by simp at h, fun h => absurd h hroot2⟩, fun _ => ⟨?_, ?_⟩⟩
            · simp
            · simp
          | cons r rows =>
            simp only [List.head?_cons, Option.map_some'] at hp
            subst hp
            by_cases heq : r.dropLast = x.dropLast
            · have hstep : tree_selection_has_common_parent_foreach_func
                  { path := some r.dropLast, is_common := true, is_root := false } x =
                  { path := some r.dropLast, is_common := true, is_root := false } := by
                have hc : gtk_tree_path_compare r.dropLast x.dropLast = 0 :=
                  (gtk_tree_path_compare_eq_zero_iff _ _).mpr heq
                simp [tree_selection_has_common_parent_foreach_func, gtk_tree_path_up,
                  gtk_tree_path_get_depth, hpos, hc]
              rw [hstep]
              refine ⟨⟨fun h => by simp at h, fun h => absurd h hroot2⟩, fun _ => ⟨?_, ?_⟩⟩
              · simp only [true_iff]
                intro p hp q hq
                have hr : ∀ z ∈ (r :: rows) ++ [x], z.dropLast = r.dropLast := by
                  intro z hz
                  rw [List.mem_append, List.mem_singleton] at hz
                  rcases hz with hz | rfl
                  · exact hall z hz r (by simp)
                  · exact heq.symm
                rw [hr p hp, hr q hq]
              · intro _
                simp
            · have hstep : tree_selection_has_common_parent_foreach_func
                  { path := some r.dropLast, is_common := true, is_root := false } x =
                  { path := some r.dropLast, is_common := false, is_root := false } := by
                have hc : gtk_tree_path_compare r.dropLast x.dropLast ≠ 0 :=
                  fun h => heq ((gtk_tree_path_compare_eq_zero_iff _ _).mp h)
                simp [tree_selection_has_common_parent_foreach_func, gtk_tree_path_up,
                  gtk_tree_path_get_depth, hpos, hc]
              rw [hstep]
              refine ⟨⟨fun h => by simp at h, fun h => absurd h hroot2⟩, fun _ => ⟨?_, ?_⟩⟩
              · constructor
                · intro h
                  simp at h
                · intro h
                  exact absurd (h r (by simp) x (by simp)) heq
              · intro h
                simp at h

/-- C20: for every selection, `tree_selection_has_common_parent` reports `is_common`
true together with `is_root` false exactly when no selected row is a top-level row
(each has a parent path of depth at least one) and all selected rows have the same
parent path; and it reports `is_root` true exactly when some selected row is
top-level. -/
theorem c20_tree_selection_has_common_parent (selection : GtkTreeSelection) :
    (((tree_selection_has_common_parent selection).1 = true ∧
        (tree_selection_has_common_parent selection).2 = false) ↔
      ((∀ p ∈ selection, gtk_tree_path_up p ≠ []) ∧
        ∀ p ∈ selection, ∀ q ∈ selection, gtk_tree_path_up p = gtk_tree_path_up q)) ∧
    ((tree_selection_has_common_parent selection).2 = true ↔
      ∃ p ∈ selection, gtk_tree_path_up p = []) := by
  obtain ⟨hroot, hrest⟩ := has_common_parent_foldl selection
  unfold tree_selection_has_common_parent gtk_tree_path_up
  simp only
  refine ⟨?_, hroot⟩
  constructor
  · rintro ⟨hc, hr⟩
    refine ⟨fun p hp hnil => ?_, ((hrest hr).1).mp hc⟩
    have := hroot.mpr ⟨p, hp, hnil⟩
    rw [hr] at this
    exact absurd this (by simp)
  · rintro ⟨hno, hall⟩
    have hr : (selection.foldl tree_selection_has_common_parent_foreach_func
        { path := none, is_common := true, is_root := false }).is_root = false := by
      by_contra h
      simp only [Bool.not_eq_false] at h
      obtain ⟨p, hp, hp2⟩ := hroot.mp h
      exact hno p hp hp2
    exact ⟨((hrest hr).1).mpr hall, hr⟩

/-! ## A mount is removed -/

namespace Application

/-- The slots the first loop visits: those of the closable windows, in the order of the
windows, panes and slots. -/
theorem visit_slots_foldl (env : MountEnv) (root : Str) (slots : List NautilusWindowSlot)
    (acc : List NautilusWindowSlot × Bool) :
    slots.foldl (visit_slot env root) acc =
      ((slots.filter (slot_is_on_mount env root)).reverse ++ acc.1,
       acc.2 || slots.any (fun s => !slot_is_on_mount env root s ||
         !should_close_slot_with_mount env s)) := by
  induction slots generalizing acc with
  | nil => simp
  | cons s slots ih =>
    rw [List.foldl_cons, ih]
    unfold visit_slot
    by_cases h1 : slot_is_on_mount env root s = true
    · by_cases h2 : should_close_slot_with_mount env s = true
      · simp [h1, h2, List.filter_cons]
      · simp only [Bool.not_eq_true] at h2
        simp [h1, h2, List.filter_cons]
    · simp only [Bool.not_eq_true] at h1
      simp [h1, List.filter_cons]

theorem visit_panes_foldl (env : MountEnv) (root : Str) (panes : List NautilusWindowPane)
    (acc : List NautilusWindowSlot × Bool) :
    panes.foldl (fun acc pane => pane.slots.foldl (visit_slot env root) acc) acc =
      (((panes.flatMap (fun pane => pane.slots)).filter (slot_is_on_mount env root)).reverse
          ++ acc.1,
       acc.2 || (panes.flatMap (fun pane => pane.slots)).any
         (fun s => !slot_is_on_mount env root s || !should_close_slot_with_mount env s)) := by
  induction panes generalizing acc with
  | nil => simp
  | cons pane panes ih =>
    rw [List.foldl_cons, ih, visit_slots_foldl]
    simp [List.flatMap_cons, List.filter_append, Bool.or_assoc]

theorem construct_close_list_foldl (env : MountEnv) (root : Str)
    (window_list : List (Option NautilusWindow)) (acc : List NautilusWindowSlot × Bool) :
    window_list.foldl (fun acc node =>
      match node with
      | none => acc
      | some window =>
        if window_can_be_closed window then
          window.panes.foldl (fun acc pane => pane.slots.foldl (visit_slot env root) acc) acc
        else acc) acc =
      (((closable_slots window_list).filter (slot_is_on_mount env root)).reverse ++ acc.1,
       acc.2 || (closable_slots window_list).any
         (fun s => !slot_is_on_mount env root s || !should_close_slot_with_mount env s)) := by
  induction window_list generalizing acc with
  | nil => simp [closable_slots]
  | cons node window_list ih =>
    rw [List.foldl_cons, ih]
    cases node with
    | none => simp [closable_slots]
    | some window =>
      by_cases hc : window_can_be_closed window = true
      · simp only [hc, if_true, visit_panes_foldl]
        simp [closable_slots, hc, List.filter_append, Bool.or_assoc]
      · simp [closable_slots, hc]

theorem construct_close_list_eq (env : MountEnv) (root : Str)
    (window_list : List (Option NautilusWindow)) :
    construct_close_list env root window_list =
      (((closable_slots window_list).filter (slot_is_on_mount env root)).reverse,
       (closable_slots window_list).any
         (fun s => !slot_is_on_mount env root s || !should_close_slot_with_mount env s)) := by
  have h := construct_close_list_foldl env root window_list ([], false)
  simp only [List.append_nil, Bool.false_or] at h
  exact h

theorem mem_window_slots (window_list : List (Option NautilusWindow))
    (slot : NautilusWindowSlot) :
    slot ∈ window_slots window_list ↔
      ∃ window, some window ∈ window_list ∧ ∃ pane ∈ window.panes, slot ∈ pane.slots := by
  unfold window_slots
  rw [List.mem_flatMap]
  constructor
  · rintro ⟨node, hnode, hs⟩
    cases node with
    | none => simp at hs
    | some window =>
      simp only [List.mem_flatMap] at hs
      exact ⟨window, hnode, hs⟩
  · rintro ⟨window, hw, hs⟩
    exact ⟨some window, hw, by simpa [List.mem_flatMap] using hs⟩

theorem mem_closable_slots (window_list : List (Option NautilusWindow))
    (slot : NautilusWindowSlot) :
    slot ∈ closable_slots window_list ↔
      ∃ window, some window ∈ window_list ∧ window.is_desktop_window = false ∧
        ∃ pane ∈ window.panes, slot ∈ pane.slots := by
  unfold closable_slots
  rw [List.mem_flatMap]
  constructor
  · rintro ⟨node, hnode, hs⟩
    cases node with
    | none => simp at hs
    | some window =>
      cases hd : window.is_desktop_window
      · simp only [window_can_be_closed, hd, Bool.not_false, if_true, List.mem_flatMap] at hs
        exact ⟨window, hnode, hd, hs⟩
      · simp [window_can_be_closed, hd] at hs
  · rintro ⟨window, hw, hd, hs⟩
    exact ⟨some window, hw, by simpa [window_can_be_closed, hd, List.mem_flatMap] using hs⟩

/-- With distinct slots, a slot of a window that cannot be closed is not a slot of a
window that can. -/
theorem not_mem_closable_slots_of_desktop (window_list : List (Option NautilusWindow))
    (hids : ((window_slots window_list).map (fun s => s.id)).Nodup)
    (window : NautilusWindow) (hw : some window ∈ window_list)
    (hd : window.is_desktop_window = true) (pane : NautilusWindowPane)
    (hp : pane ∈ window.panes) (slot : NautilusWindowSlot) (hs : slot ∈ pane.slots) :
    slot ∉ closable_slots window_list := by
  intro hmem
  obtain ⟨window2, hw2, hd2, pane2, hp2, hs2⟩ := (mem_closable_slots _ _).mp hmem
  have hne : some window ≠ some window2 := by
    intro e
    injection e with e
    rw [e, hd2] at hd
    exact absurd hd (by simp)
  have hnodup := List.Nodup.of_map _ hids
  unfold window_slots at hnodup
  have hpair := (List.nodup_flatMap.mp hnodup).2
  have hdisj := List.Pairwise.forall (fun a b h => h.symm) hpair hw hw2 hne
  simp only [Function.onFun] at hdisj
  exact hdisj (List.mem_flatMap.mpr ⟨pane, hp, hs⟩) (List.mem_flatMap.mpr ⟨pane2, hp2, hs2⟩)

theorem mount_removed_callback_eq (env : MountEnv) (root : Str)
    (window_list : List (Option NautilusWindow)) (desktop_windows : Bool) :
    mount_removed_callback env root window_list desktop_windows =
      ((closable_slots window_list).filter (slot_is_on_mount env root)).reverse.map (fun slot =>
        if should_close_slot_with_mount env slot &&
            !(some slot.id ==
              (force_no_close_slot env root window_list desktop_windows).map (fun s => s.id))
        then SlotAction.nautilus_window_pane_slot_close slot.id
        else SlotAction.nautilus_window_slot_go_to_home slot.id) := by
  unfold mount_removed_callback
  rw [construct_close_list_eq]

theorem closable_slots_subset (window_list : List (Option NautilusWindow))
    (slot : NautilusWindowSlot) (h : slot ∈ closable_slots window_list) :
    slot ∈ window_slots window_list := by
  obtain ⟨window, hw, _, hs⟩ := (mem_closable_slots _ _).mp h
  exact (mem_window_slots _ _).mpr ⟨window, hw, hs⟩

/-- With distinct slots, what is done to a slot of the list. -/
theorem slot_action_mem_iff (env : MountEnv) (root : Str)
    (window_list : List (Option NautilusWindow)) (desktop_windows : Bool)
    (hids : ((window_slots window_list).map (fun s => s.id)).Nodup)
    (slot : NautilusWindowSlot) (hslot : slot ∈ window_slots window_list) :
    (SlotAction.nautilus_window_pane_slot_close slot.id ∈
        mount_removed_callback env root window_list desktop_windows ↔
      slot ∈ closable_slots window_list ∧ slot_is_on_mount env root slot = true ∧
        env.nautilus_window_slot_should_close_with_mount slot = true ∧
        (force_no_close_slot env root window_list desktop_windows).map (fun s => s.id)
          ≠ some slot.id) ∧
    (SlotAction.nautilus_window_slot_go_to_home slot.id ∈
        mount_removed_callback env root window_list desktop_windows ↔
      slot ∈ closable_slots window_list ∧ slot_is_on_mount env root slot = true ∧
        ¬ (env.nautilus_window_slot_should_close_with_mount slot = true ∧
          (force_no_close_slot env root window_list desktop_windows).map (fun s => s.id)
            ≠ some slot.id)) := by
  have hinj := List.inj_on_of_nodup_map hids
  rw [mount_removed_callback_eq]
  generalize force_no_close_slot env root window_list desktop_windows = force
  simp only [List.mem_map, List.mem_reverse, List.mem_filter, should_close_slot_with_mount]
  constructor
  · constructor
    · rintro ⟨s, ⟨hs1, hs2⟩, hact⟩
      split_ifs at hact with hc
      injection hact with hid
      have hs : s = slot := hinj (closable_slots_subset _ _ hs1) hslot hid
      subst hs
      simp only [Bool.and_eq_true, Bool.not_eq_true', beq_eq_false_iff_ne, ne_eq] at hc
      exact ⟨hs1, hs2, hc.1, fun e => hc.2 e.symm⟩
    · rintro ⟨h1, h2, h3, h4⟩
      refine ⟨slot, ⟨h1, h2⟩, ?_⟩
      have : (env.nautilus_window_slot_should_close_with_mount slot &&
          !(some slot.id == Option.map (fun s => s.id) force)) = true := by
        simp only [Bool.and_eq_true, Bool.not_eq_true', beq_eq_false_iff_ne, ne_eq]
        exact ⟨h3, fun e => h4 e.symm⟩
      rw [if_pos this]
  · constructor
    · rintro ⟨s, ⟨hs1, hs2⟩, hact⟩
      split_ifs at hact with hc
      injection hact with hid
      have hs : s = slot := hinj (closable_slots_subset _ _ hs1) hslot hid
      subst hs
      refine ⟨hs1, hs2, fun hcond => hc ?_⟩
      simp only [Bool.and_eq_true, Bool.not_eq_true', beq_eq_false_iff_ne, ne_eq]
      exact ⟨hcond.1, fun e => hcond.2 e.symm⟩
    · rintro ⟨h1, h2, h3⟩
      refine ⟨slot, ⟨h1, h2⟩, ?_⟩
      have : ¬ (env.nautilus_window_slot_should_close_with_mount slot &&
          !(some slot.id == Option.map (fun s => s.id) force)) = true := by
        simp only [Bool.and_eq_true, Bool.not_eq_true', beq_eq_false_iff_ne, ne_eq]
        exact fun hc => h3 ⟨hc.1, fun e => hc.2 e.symm⟩
      rw [if_neg this]

theorem slot_is_on_mount_iff (env : MountEnv) (root : Str) (slot : NautilusWindowSlot) :
    slot_is_on_mount env root slot = true ↔
      (slot.location = none ∨ ∃ location, slot.location = some location ∧
        ( env.g_file_has_prefix location root = true ∨ env.g_file_equal location root = true)) := by
  unfold slot_is_on_mount
  cases slot.location <;> simp

/-- C15: with distinct slots, for every slot of every window of the list: if the
window is not a desktop window and the location of the slot is unset, lies under the
root of the removed mount or equals it, the slot is either closed or sent to the home
folder, and it is closed exactly when it should close with the mount and is not the
slot kept open; every other slot, and every slot of a desktop window, is neither
closed nor sent anywhere. -/
theorem c15_mount_removed_slots (env : MountEnv) (root : Str)
    (window_list : List (Option NautilusWindow)) (desktop_windows : Bool)
    (hids : ((window_slots window_list).map (fun s => s.id)).Nodup)
    (window : NautilusWindow) (hwindow : some window ∈ window_list)
    (pane : NautilusWindowPane) (hpane : pane ∈ window.panes)
    (slot : NautilusWindowSlot) (hslot : slot ∈ pane.slots) :
    ((window.is_desktop_window = false ∧
        (slot.location = none ∨ ∃ location, slot.location = some location ∧
          ( env.g_file_has_prefix location root = true ∨
            env.g_file_equal location root = true))) →
      (SlotAction.nautilus_window_pane_slot_close slot.id ∈
          mount_removed_callback env root window_list desktop_windows ↔
        (env.nautilus_window_slot_should_close_with_mount slot = true ∧
          (force_no_close_slot env root window_list desktop_windows).map (fun s => s.id)
            ≠ some slot.id)) ∧
      (SlotAction.nautilus_window_slot_go_to_home slot.id ∈
          mount_removed_callback env root window_list desktop_windows ↔
        ¬ (env.nautilus_window_slot_should_close_with_mount slot = true ∧
          (force_no_close_slot env root window_list desktop_windows).map (fun s => s.id)
            ≠ some slot.id))) ∧
    (¬ (window.is_desktop_window = false ∧
        (slot.location = none ∨ ∃ location, slot.location = some location ∧
          ( env.g_file_has_prefix location root = true ∨
            env.g_file_equal location root = true))) →
      SlotAction.nautilus_window_pane_slot_close slot.id ∉
          mount_removed_callback env root window_list desktop_windows ∧
      SlotAction.nautilus_window_slot_go_to_home slot.id ∉
          mount_removed_callback env root window_list desktop_windows) := by
  have hmem : slot ∈ window_slots window_list :=
    (mem_window_slots _ _).mpr ⟨window, hwindow, pane, hpane, hslot⟩
  obtain ⟨hclose, hhome⟩ := slot_action_mem_iff env root window_list desktop_windows hids slot hmem
  rw [← slot_is_on_mount_iff]
  constructor
  · rintro ⟨hd, hon⟩
    have hc : slot ∈ closable_slots window_list :=
      (mem_closable_slots _ _).mpr ⟨window, hwindow, hd, pane, hpane, hslot⟩
    rw [hclose, hhome]
    exact ⟨⟨fun h => h.2.2, fun h => ⟨hc, hon, h⟩⟩, ⟨fun h => h.2.2, fun h => ⟨hc, hon, h⟩⟩⟩
  · intro hnot
    rw [hclose, hhome]
    have : ¬ (slot ∈ closable_slots window_list ∧ slot_is_on_mount env root slot = true) := by
      rintro ⟨hc, hon⟩
      apply hnot
      refine ⟨?_, hon⟩
      cases hd : window.is_desktop_window
      · rfl
      · exact absurd hc
          (not_mem_closable_slots_of_desktop window_list hids window hwindow hd pane hpane slot
            hslot)
    exact ⟨fun h => this ⟨h.1, h.2.1⟩, fun h => this ⟨h.1, h.2.1⟩⟩

/-- C14: when no desktop window exists (`nautilus_application_desktop_windows` is
`NULL` and no window of the list is a desktop window) and at least one slot is open,
the slots being distinct, `mount_removed_callback` leaves a slot that it does not
close: that slot is sent to the home folder, or nothing is done to it. -/
theorem c14_mount_removed_keeps_a_slot (env : MountEnv) (root : Str)
    (window_list : List (Option NautilusWindow))
    (hids : ((window_slots window_list).map (fun s => s.id)).Nodup)
    (hdesktop : ∀ window, some window ∈ window_list → window.is_desktop_window = false)
    (hopen : window_slots window_list ≠ []) :
    ∃ slot ∈ window_slots window_list,
      SlotAction.nautilus_window_pane_slot_close slot.id ∉
        mount_removed_callback env root window_list false ∧
      (SlotAction.nautilus_window_slot_go_to_home slot.id ∈
          mount_removed_callback env root window_list false ∨
        ∀ action ∈ mount_removed_callback env root window_list false,
          action ≠ SlotAction.nautilus_window_pane_slot_close slot.id ∧
          action ≠ SlotAction.nautilus_window_slot_go_to_home slot.id) := by
  have hall : ∀ s, s ∈ window_slots window_list → s ∈ closable_slots window_list := by
    intro s hs
    obtain ⟨window, hw, hp⟩ := (mem_window_slots _ _).mp hs
    exact (mem_closable_slots _ _).mpr ⟨window, hw, hdesktop window hw, hp⟩
  by_cases hun : (closable_slots window_list).any
      (fun s => !slot_is_on_mount env root s || !should_close_slot_with_mount env s) = true
  · rw [List.any_eq_true] at hun
    obtain ⟨s, hs, hcond⟩ := hun
    have hsw := closable_slots_subset _ _ hs
    obtain ⟨hclose, hhome⟩ := slot_action_mem_iff env root window_list false hids s hsw
    refine ⟨s, hsw, ?_, ?_⟩
    · rw [hclose]
      rintro ⟨_, h2, h3, _⟩
      simp [should_close_slot_with_mount, h2, h3] at hcond
    · by_cases hon : slot_is_on_mount env root s = true
      · left
        rw [hhome]
        refine ⟨hs, hon, fun h => ?_⟩
        simp [should_close_slot_with_mount, hon, h.1] at hcond
      · right
        intro action ha
        constructor
        · rintro rfl
          exact hon (hclose.mp ha).2.1
        · rintro rfl
          exact hon (hhome.mp ha).2.1
  · -- every slot is in the close list and should close: the first of the list is kept
    simp only [Bool.not_eq_true] at hun
    have hcl : construct_close_list env root window_list =
        (((closable_slots window_list).filter (slot_is_on_mount env root)).reverse, false) := by
      rw [construct_close_list_eq, hun]
    have hne : ((closable_slots window_list).filter (slot_is_on_mount env root)).reverse ≠ [] := by
      obtain ⟨s, hs⟩ := List.exists_mem_of_ne_nil _ hopen
      have hsc := hall s hs
      have hon : slot_is_on_mount env root s = true := by
        by_contra hon
        simp only [Bool.not_eq_true] at hon
        have := List.any_eq_false.mp hun s hsc
        simp [hon] at this
      intro e
      have : s ∈ ((closable_slots window_list).filter (slot_is_on_mount env root)).reverse :=
        List.mem_reverse.mpr (List.mem_filter.mpr ⟨hsc, hon⟩)
      rw [e] at this
      exact absurd this (List.not_mem_nil _)
    obtain ⟨s0, rest, hlist⟩ := List.exists_cons_of_ne_nil hne
    have hforce : force_no_close_slot env root window_list false = some s0 := by
      unfold force_no_close_slot
      rw [hcl, hlist]
      rfl
    have hs0 : s0 ∈ (closable_slots window_list).filter (slot_is_on_mount env root) := by
      rw [← List.mem_reverse, hlist]
      exact List.mem_cons_self _ _
    rw [List.mem_filter] at hs0
    have hsw := closable_slots_subset _ _ hs0.1
    obtain ⟨hclose, hhome⟩ := slot_action_mem_iff env root window_list false hids s0 hsw
    refine ⟨s0, hsw, ?_, Or.inl ?_⟩
    · rw [hclose, hforce]
      rintro ⟨_, _, _, h4⟩
      exact h4 rfl
    · rw [hhome, hforce]
      exact ⟨hs0.1, hs0.2, fun h => h.2 rfl⟩

theorem c14_mount_removed_keeps_a_slot_witness :
    ((window_slots example_navigation_windows).map (fun s => s.id)).Nodup ∧
    window_slots example_navigation_windows ≠ [] ∧
    ∃ slot ∈ window_slots example_navigation_windows,
      SlotAction.nautilus_window_pane_slot_close slot.id ∉
        mount_removed_callback example_mount_env "file:///media/usb".toList
          example_navigation_windows false := by
  refine ⟨by decide, by decide, ?_⟩
  obtain ⟨slot, hslot, hclose, _⟩ :=
    c14_mount_removed_keeps_a_slot example_mount_env "file:///media/usb".toList
      example_navigation_windows (by decide)
      (by
        intro window hw
        simp only [example_navigation_windows, List.mem_singleton, Option.some.injEq] at hw
        subst hw
        rfl)
      (by decide)
  exact ⟨slot, hslot, hclose⟩

theorem c15_mount_removed_slots_witness :
    ((window_slots example_windows_with_desktop).map (fun s => s.id)).Nodup ∧
    SlotAction.nautilus_window_pane_slot_close 1 ∈
      mount_removed_callback example_mount_env "file:///media/usb".toList
        example_windows_with_desktop true ∧
    SlotAction.nautilus_window_pane_slot_close 2 ∉
      mount_removed_callback example_mount_env "file:///media/usb".toList
        example_windows_with_desktop true := by
  refine ⟨by decide, ?_, ?_⟩
  · exact ((c15_mount_removed_slots example_mount_env "file:///media/usb".toList
      example_windows_with_desktop true (by decide)
      { is_desktop_window := false,
        panes := [{ slots := [{ id := 1, location := some "file:///media/usb/photos".toList },
                              { id := 2, location := some "file:///home/u".toList }] }] }
      (by decide) _ (List.mem_singleton.mpr rfl)
      { id := 1, location := some "file:///media/usb/photos".toList }
      (by decide)).1 ⟨rfl, Or.inr ⟨_, rfl, Or.inl (by decide)⟩⟩).1.mpr ⟨rfl, by decide⟩
  · decide

end Application

/-! ## D-Bus registration and disposal -/

/-- C17, on the code: the bus is acquired and both registrations succeed, with ids 1
and 2; `registration_id` keeps only the second.  After `nautilus_dbus_manager_dispose`
the name is no longer owned, but the object registered for
`org.gnome.Nautilus.FileOperations` is still registered. -/
theorem c17_first_registration_survives_dispose :
    bus_acquired_handler_cb true true true example_dbus_manager example_session_bus =
      ({ connection := true, owner_id := 1, registration_id := 2 },
       { registered := [(1, "org.gnome.Nautilus.FileOperations".toList),
                        (2, "org.gnome.Nautilus.FileManager1".toList)],
         owned := [1], last_registration_id := 2 }) ∧
    nautilus_dbus_manager_dispose
        (bus_acquired_handler_cb true true true example_dbus_manager example_session_bus).1
        (bus_acquired_handler_cb true true true example_dbus_manager example_session_bus).2 =
      ({ connection := false, owner_id := 0, registration_id := 0 },
       { registered := [(1, "org.gnome.Nautilus.FileOperations".toList)],
         owned := [], last_registration_id := 2 }) := by
  decide

/-! ## Icons of desktop links -/

/-- C18, on the code: the list of known extensions holds `.svn` where `.svg` is meant,
so for `Icon=foo.svg` the themed icon is built from `foo.svg`, unstripped, while
`foo.svn` is stripped like `foo.png`; and the extension is looked for at the first dot,
so `org.gnome.foo.png` is not stripped either. -/
theorem c18_svg_extension_is_kept :
    (nautilus_link_get_link_info_given_file_contents example_deps svg_icon_text none).map
        (fun info => info.icon) =
      some (GIcon.themed_icon_with_default_fallbacks "foo.svg".toList) ∧
    strip_icon_extension "foo.svg".toList = "foo.svg".toList ∧
    strip_icon_extension "foo.svn".toList = "foo".toList ∧
    strip_icon_extension "foo.png".toList = "foo".toList ∧
    strip_icon_extension "org.gnome.foo.png".toList = "org.gnome.foo.png".toList := by
  decide

/-- C19, as stated, fails: a desktop entry with `Type=Link` whose `Icon` is an absolute
path gets the file icon of that path, without emblem. -/
theorem c19_absolute_icon_link_has_no_emblem :
    (nautilus_link_get_link_info_given_file_contents example_deps absolute_icon_link_text
        none).map (fun info => info.icon) =
      some (GIcon.file_icon "/usr/share/pixmaps/a.png".toList) ∧
    (example_deps.g_key_file_load_from_data absolute_icon_link_text).map
        (fun key_file => example_deps.g_key_file_get_string key_file MAIN_GROUP "Type".toList) =
      some (some "Link".toList) := by
  decide

/-- C19, amended: whenever `Type` is exactly `Link` and the `Icon` value is absent or
not an absolute path, the icon carries the `emblem-symbolic-link` emblem; for every
other `Type` (or no `Type`) it carries no emblem; and whenever `Icon` is an absolute
path the icon is the file icon of that path, without emblem. -/
theorem c19_link_emblem {KF : Type} (D : LinkDeps KF) (key_file : KF) :
    (D.g_key_file_get_string key_file MAIN_GROUP "Type".toList = some "Link".toList →
      (D.g_key_file_get_string key_file MAIN_GROUP "Icon".toList = none ∨
        ∃ icon_str, D.g_key_file_get_string key_file MAIN_GROUP "Icon".toList = some icon_str ∧
          g_path_is_absolute icon_str = false) →
      ∃ icon, nautilus_link_get_link_icon_from_desktop D key_file =
        GIcon.emblemed_icon icon (GIcon.themed_icon "emblem-symbolic-link".toList)) ∧
    (D.g_key_file_get_string key_file MAIN_GROUP "Type".toList ≠ some "Link".toList →
      ∀ icon emblem, nautilus_link_get_link_icon_from_desktop D key_file ≠
        GIcon.emblemed_icon icon emblem) ∧
    (∀ icon_str, D.g_key_file_get_string key_file MAIN_GROUP "Icon".toList = some icon_str →
      g_path_is_absolute icon_str = true →
      nautilus_link_get_link_icon_from_desktop D key_file = GIcon.file_icon icon_str) := by
  refine ⟨?_, ?_, ?_⟩
  · intro htype hicon
    unfold nautilus_link_get_link_icon_from_desktop
    rcases hicon with hnone | ⟨icon_str, hsome, habs⟩
    · rw [hnone, htype]
      exact ⟨_, rfl⟩
    · rw [hsome, htype]
      simp only [habs, Bool.false_eq_true, if_false]
      exact ⟨_, rfl⟩
  · intro htype icon emblem
    unfold nautilus_link_get_link_icon_from_desktop
    have hne : g_strcmp0_eq (D.g_key_file_get_string key_file MAIN_GROUP "Type".toList)
        "Link".toList = false := by
      cases ht : D.g_key_file_get_string key_file MAIN_GROUP "Type".toList with
      | none => rfl
      | some t =>
        rw [ht] at htype
        simp only [g_strcmp0_eq, beq_eq_false_iff_ne, ne_eq]
        exact fun e => htype (by rw [e])
    cases hi : D.g_key_file_get_string key_file MAIN_GROUP "Icon".toList with
    | none =>
      simp only [hne, Bool.false_eq_true, if_false]
      intro h
      cases h
    | some s =>
      by_cases habs : g_path_is_absolute s = true
      · simp only [habs, if_true]
        intro h
        cases h
      · simp only [habs, hne, Bool.false_eq_true, if_false]
        intro h
        cases h
  · intro icon_str hsome habs
    unfold nautilus_link_get_link_icon_from_desktop
    rw [hsome]
    simp [habs]

/-! ## The end of a rename in the list view -/

/-- C21. `cell_renderer_editing_started_cb` records the text of the entry as
`original_name`.  With a name recorded, `cell_renderer_edited` returns, and among the
calls it makes there is a rename exactly when the new text is not empty and differs from
the recorded name: then it is one call of `nautilus_rename_file`, for the file of the
row and the new text.  In every case the editable widget is cleared, the file-name cell
is set non-editable once and never editable, and the updates of the view are unfrozen
once. -/
theorem c21_cell_renderer_edited {W : Type} (env : ListViewEnv W)
    (before : ListView W) (editable : Nat) (text : Str)
    (view : ListView W) (original_name path_str new_text : Str)
    (h : view.details.original_name = some original_name) :
    (cell_renderer_editing_started_cb env before editable text).details.original_name =
        some text ∧
      ∃ after new_calls,
        cell_renderer_edited env view path_str new_text = some after ∧
        after.calls = view.calls ++ new_calls ∧
        new_calls.filter starts_rename =
          (if new_text ≠ [] ∧ new_text ≠ original_name then
            [.nautilus_rename_file (env.file_column_of_path_string view.world path_str)
              new_text]
          else []) ∧
        after.details.editable_widget = none ∧
        new_calls.count (.g_object_set_editable false) = 1 ∧
        new_calls.count (.g_object_set_editable true) = 0 ∧
        new_calls.count .nautilus_view_unfreeze_updates = 1 := by
  refine ⟨rfl, ?_⟩
  unfold cell_renderer_edited
  by_cases hempty : new_text = []
  · subst hempty
    refine ⟨_, [.g_object_set_editable false, .nautilus_view_unfreeze_updates], rfl, ?_, ?_⟩
    · simp [ListView.call]
    · simp [starts_rename, ListView.call]
  · have hne : new_text.isEmpty = false := by
      cases new_text with
      | nil => exact absurd rfl hempty
      | cons c cs => rfl
    simp only [hne, Bool.false_eq_true, if_false, h]
    by_cases hsame : new_text = original_name
    · have hcmp : strcmp_eq new_text original_name = true := by
        simp [strcmp_eq, hsame]
      simp only [hcmp, Bool.not_true, Bool.false_eq_true, if_false]
      refine ⟨_, [.g_object_set_editable false, .nautilus_view_unfreeze_updates], rfl, ?_, ?_⟩
      · simp [ListView.call]
      · simp [starts_rename, ListView.call, hsame]
    · have hcmp : strcmp_eq new_text original_name = false := by
        simp [strcmp_eq, hsame]
      simp only [hcmp, Bool.not_false, if_true]
      refine ⟨_, [.nautilus_rename_file (env.file_column_of_path_string view.world path_str)
        new_text, .g_object_set_editable false, .nautilus_view_unfreeze_updates], rfl, ?_, ?_⟩
      · simp [ListView.call]
      · simp [starts_rename, ListView.call, hsame, hempty]

theorem c21_cell_renderer_edited_witness :
    example_editing_view.details.original_name = some "a.txt".toList ∧
    (cell_renderer_edited example_list_view_env example_editing_view "0".toList
      "b.txt".toList).map (fun after => after.calls) =
        some [.nautilus_rename_file (some 0) "b.txt".toList,
          .g_object_set_editable false, .nautilus_view_unfreeze_updates] ∧
    ∃ after,
      cell_renderer_edited example_list_view_env example_editing_view "0".toList
        "b.txt".toList = some after ∧
      after.details.editable_widget = none := by
  refine ⟨rfl, by decide, ?_⟩
  obtain ⟨_, after, _, hafter, _, _, hwidget, _⟩ :=
    c21_cell_renderer_edited example_list_view_env example_editing_view 1 "a.txt".toList
      example_editing_view "a.txt".toList "0".toList "b.txt".toList rfl
  exact ⟨after, hafter, hwidget⟩

/-! ## Button presses on the list view -/

/-- A double-click time above 2147483 ms makes the product `double_click_time * 1000`
negative in `int`: no click counts as a repeated one. -/
theorem determine_click_count_of_wrapped_product {W : Type} (env : ListViewEnv W)
    (statics : ButtonPressStatics) (w : W)
    (htime : env.gtk_double_click_time w = 2147484)
    (hlast : 0 ≤ env.eel_get_system_time w - statics.last_click_time)
    (hrange : env.eel_get_system_time w - statics.last_click_time < 9223372036854775808) :
    (determine_click_count env statics w).click_count = 0 := by
  unfold determine_click_count wrap_gint64 wrap_gint
  simp only [htime]
  rw [if_neg]
  omega

/-- A coordinate beyond the range of `int` is converted to `INT_MIN`. -/
theorem gint_of_gdouble_out_of_range :
    gint_of_gdouble 3000000000 = -2147483648 ∧ gint_of_gdouble 10 = 10 := by
  decide

end Nautilus
